import Mathlib

/-!
# The iperf3 bridge (`shared/iperf3_bridge.c`)

A shallow embedding of the C bridge that drives one iperf3 test on top of the
blocking iperf3 engine.  The file-scope variables of the bridge and the engine's
error indicator `i_errno` form an explicit `State`; every bridge function is a
state transformer.  The engine (`iperf.h`, `iperf_api.h`, `cjson.h`) is not part
of the sources: its constants and the results of its calls are the fields of an
environment `Env`, and every call made on an engine instance is recorded, in
order, in that instance's `calls`.  Logging is left out.
-/

set_option autoImplicit false

namespace Iperf3Bridge

/-! ## JSON values (cjson.h) -/

/-- Modelled from the spec: the JSON library (`cjson.h`) is not among the sources.
A JSON value as the engine stores its interval list: numbers carry `valuedouble`
(a finite double, hence a rational), arrays and objects carry their children in
order, the children of an object with their key. -/
inductive cJSON where
  | null : cJSON
  | bool (b : Bool) : cJSON
  | number (valuedouble : Rat) : cJSON
  | string (valuestring : String) : cJSON
  | array (items : List cJSON) : cJSON
  | object (members : List (String × cJSON)) : cJSON

/-- Modelled from the spec: `cJSON_GetArraySize` of the missing JSON library, the
number of children of an array (or object). -/
def cJSON_GetArraySize : cJSON → Int
  | .array items => items.length
  | .object members => members.length
  | _ => 0

/-- Modelled from the spec: `cJSON_GetArrayItem` of the missing JSON library, the
child at a 0-based position, `NULL` when the position is negative or past the end. -/
def cJSON_GetArrayItem (array : cJSON) (index : Int) : Option cJSON :=
  if index < 0 then none
  else
    match array with
    | .array items => items[index.toNat]?
    | .object members => (members[index.toNat]?).map Prod.snd
    | _ => none

/-- Modelled from the spec: `cJSON_GetObjectItemCaseSensitive` of the missing JSON
library, the first member of an object stored under exactly the given key. -/
def cJSON_GetObjectItemCaseSensitive (object : cJSON) (name : String) : Option cJSON :=
  match object with
  | .object members => (members.find? (fun m => m.1 == name)).map Prod.snd
  | _ => none

/-- Modelled from the spec: `cJSON_IsNumber` of the missing JSON library. -/
def cJSON_IsNumber : cJSON → Bool
  | .number _ => true
  | _ => false

/-- The `valuedouble` field of an item; it is only read after `cJSON_IsNumber`. -/
def cJSON.valuedouble : cJSON → Rat
  | .number v => v
  | _ => 0

/-- The integral part of a rational number (rounding toward zero). This is
arithmetic, not yet a conversion of C: see `double_to_long` and `double_to_int`. -/
def truncate_toward_zero (x : Rat) : Int :=
  if 0 ≤ x then Rat.floor x else Rat.ceil x

/-! ## Engine instances and the environment -/

/-- The two transports of `set_protocol`. -/
inductive Protocol where
  | Ptcp : Protocol
  | Pudp : Protocol
  deriving DecidableEq, Repr

/-- A call the bridge makes on an engine instance, with its arguments. -/
inductive EngineCall where
  | iperf_defaults : EngineCall
  | iperf_set_test_role (role : Char) : EngineCall
  | iperf_set_test_server_hostname (host : String) : EngineCall
  | iperf_set_test_server_port (port : Int) : EngineCall
  | iperf_set_test_duration (duration : Int) : EngineCall
  | iperf_set_test_num_streams (parallel : Int) : EngineCall
  | iperf_set_test_reverse (reverse : Int) : EngineCall
  | iperf_set_test_json_output (json : Int) : EngineCall
  | set_protocol (p : Protocol) : EngineCall
  | iperf_set_test_blksize (blksize : Int) : EngineCall
  | iperf_set_test_rate (rate : Int) : EngineCall
  | iperf_get_test_rate : EngineCall
  | iperf_run_client : EngineCall
  | iperf_set_test_state (state : Int) : EngineCall
  | iperf_set_send_state (state : Int) : EngineCall
  | iperf_get_test_json_output_string : EngineCall
  | iperf_run_server : EngineCall
  deriving DecidableEq, Repr

/-- A value of type `void (*)(struct iperf_test *)`: a reporter of the engine, or
the relay of the bridge. -/
inductive ReporterFn where
  | engine (hook : Nat) : ReporterFn
  | bridge_reporter_callback : ReporterFn
  deriving DecidableEq, Repr

/-- The part of `struct iperf_test` the bridge reads or writes, and the calls made
on the instance so far (oldest first). -/
structure iperf_test where
  calls : List EngineCall
  reporter_callback : Option ReporterFn
  json_intervals : Option cJSON
  done : Int

/-- What happens while the calling thread is between registering and deregistering
its instance: the engine invokes `test->reporter_callback(test)`, where
`json_intervals` is the value of `test->json_intervals` when the relay reads it
(after the saved reporter has run), or another thread calls
`iperf3_request_client_cancel`. -/
inductive RunEvent where
  | reporter (json_intervals : Option cJSON) : RunEvent
  | cancel : RunEvent

/-- The course of one blocking `iperf_run_client`: the events in the order in which
they happen, the value returned, and the value of `i_errno` read right after. -/
structure RunScript where
  events : List RunEvent
  result_code : Int
  i_errno : Int

/-- Everything the bridge does not control: the engine's constants, the outcome of
each engine and thread call (as a function of the calls made on the instance so
far, and of `i_errno` where the call may set it), and the other threads. -/
structure Env where
  IENONE : Int
  IECLIENTTERM : Int
  CLIENT_TERMINATE : Int
  IPERF_VERSION : String
  /-- The least and greatest value of the platform's `int` (`limits.h`). -/
  INT_MIN : Int
  INT_MAX : Int
  /-- The least and greatest value of the platform's `long` (`limits.h`). -/
  LONG_MIN : Int
  LONG_MAX : Int
  /-- The text `iperf_strerror(code)` returns; `none` is `NULL`. -/
  iperf_strerror : Int → Option String
  /-- Outcome of `iperf_new_test()`: whether an instance is returned, and `i_errno` afterwards. -/
  iperf_new_test : Int → Bool × Int
  /-- The reporter `iperf_defaults` leaves in `test->reporter_callback`. -/
  iperf_defaults_reporter : Option ReporterFn
  /-- Outcome of `set_protocol(test, p)`: the value returned, and `i_errno` afterwards. -/
  set_protocol : List EngineCall → Protocol → Int → Int × Int
  /-- Course of `iperf_run_client(test)`. -/
  iperf_run_client : List EngineCall → RunScript
  /-- Outcome of `iperf_set_send_state(test, state)`: the value returned, and `i_errno` afterwards. -/
  iperf_set_send_state : List EngineCall → Int → Int → Int × Int
  /-- The string `iperf_get_test_json_output_string(test)` returns; `none` is `NULL`. -/
  iperf_get_test_json_output_string : List EngineCall → Option String
  /-- Outcome of `pthread_create`: the value returned and the thread handle. -/
  pthread_create : List EngineCall → Int × Nat
  /-- Whether `pthread_cancel` is available (it is not on Android). -/
  supports_pthread_cancel : Bool

/-- The conversion `(long)x` of a `double`: the integral part of `x` when it is a
value of `long`; otherwise the behaviour is undefined in C, and the result is `none`. -/
def double_to_long (W : Env) (x : Rat) : Option Int :=
  if W.LONG_MIN ≤ truncate_toward_zero x ∧ truncate_toward_zero x ≤ W.LONG_MAX then
    some (truncate_toward_zero x)
  else none

/-- The conversion `(int)x` of a `double`: the integral part of `x` when it is a
value of `int`; otherwise the behaviour is undefined in C, and the result is `none`. -/
def double_to_int (W : Env) (x : Rat) : Option Int :=
  if W.INT_MIN ≤ truncate_toward_zero x ∧ truncate_toward_zero x ≤ W.INT_MAX then
    some (truncate_toward_zero x)
  else none

/-! ## The bridge's data -/

/-- The `Iperf3Result` of `iperf3_bridge.h`; `none` is a `NULL` string. -/
structure Iperf3Result where
  success : Bool
  sentBitsPerSecond : Rat
  receivedBitsPerSecond : Rat
  sendMbps : Rat
  receiveMbps : Rat
  rtt : Rat
  jitter : Rat
  jsonOutput : Option String
  errorMessage : Option String
  errorCode : Int

/-- The envelope after `memset(result, 0, sizeof(Iperf3Result))`. -/
def Iperf3Result.zeroed : Iperf3Result :=
  { success := false, sentBitsPerSecond := 0, receivedBitsPerSecond := 0, sendMbps := 0,
    receiveMbps := 0, rtt := 0, jitter := 0, jsonOutput := none, errorMessage := none,
    errorCode := 0 }

/-- Something the bridge does to the outside, in order: a call of the saved
reporter, a call of the caller's `Iperf3ProgressCallback`, thread operations. In a
call of the progress callback `bytesTransferred` and `lostPackets` are results of
conversions from `double`; `none` stands for the result of a conversion whose
behaviour is undefined. -/
inductive Effect where
  | original_reporter (fn : ReporterFn) (test : Option Nat) : Effect
  | progress (callback : Nat) (context : Option Nat) (interval : Int)
      (bytesTransferred : Option Int) (bitsPerSecond : Rat) (jitter : Rat)
      (lostPackets : Option Int) (rtt : Rat) : Effect
  | pthread_cancel (thread : Nat) : Effect
  | pthread_join (thread : Nat) : Effect

/-- The file-scope variables of the bridge, the engine's `i_errno`, and the engine
instances by address (`none`: released by `iperf_free_test`). A pointer to an
instance is its position in `heap`; `none` is `NULL`. -/
structure State where
  heap : List (Option iperf_test)
  i_errno : Int
  g_progress_callback : Option Nat
  g_progress_context : Option Nat
  g_original_reporter_callback : Option ReporterFn
  g_last_reported_interval : Int
  g_active_client_test : Option Nat
  g_cancel_client_requested : Int
  g_server_test : Option Nat
  g_server_thread : Nat
  g_server_running : Bool

/-- The state of a process that has not called the bridge yet. -/
def State.initial (IENONE : Int) : State :=
  { heap := [], i_errno := IENONE, g_progress_callback := none, g_progress_context := none,
    g_original_reporter_callback := none, g_last_reported_interval := 0,
    g_active_client_test := none, g_cancel_client_requested := 0, g_server_test := none,
    g_server_thread := 0, g_server_running := false }

/-- The instance a pointer refers to. -/
def State.deref (s : State) (test : Nat) : Option iperf_test :=
  (s.heap[test]?).join

/-- The calls made so far on the instance a pointer refers to. -/
def State.callsOf (s : State) (test : Nat) : List EngineCall :=
  match s.deref test with
  | some t => t.calls
  | none => []

/-- Update the instance a pointer refers to. -/
def State.update (s : State) (test : Nat) (f : iperf_test → iperf_test) : State :=
  { s with heap := s.heap.modify (Option.map f) test }

/-- Record a call made on an instance. -/
def State.call (s : State) (test : Nat) (c : EngineCall) : State :=
  s.update test (fun t => { t with calls := t.calls ++ [c] })

/-- The instance as `iperf_new_test` returns it. -/
def iperf_test.fresh : iperf_test :=
  { calls := [], reporter_callback := none, json_intervals := none, done := 0 }

/-- The engine's `iperf_free_test(test)`: the instance is released. -/
def iperf_free_test (s : State) (test : Nat) : State :=
  { s with heap := s.heap.set test none }

/-! ## The progress relay -/

/-- The static `get_json_number`: the number stored under `name`, else `fallback`. -/
def get_json_number (object : Option cJSON) (name : Option String) (fallback : Rat) : Rat :=
  match object, name with
  | some obj, some nm =>
    match cJSON_GetObjectItemCaseSensitive obj nm with
    | some item => if cJSON_IsNumber item then item.valuedouble else fallback
    | none => fallback
  | _, _ => fallback

/-- The static `get_interval_sum`: the record's "sum", else "sum_sent", else
"sum_received". -/
def get_interval_sum (interval : Option cJSON) : Option cJSON :=
  match interval with
  | none => none
  | some iv =>
    let sum := cJSON_GetObjectItemCaseSensitive iv "sum"
    let sum := if sum.isNone then cJSON_GetObjectItemCaseSensitive iv "sum_sent" else sum
    let sum := if sum.isNone then cJSON_GetObjectItemCaseSensitive iv "sum_received" else sum
    sum

/-- The body of the `for` loop of `bridge_reporter_callback` at position `idx`:
nothing when the record has no summary, else one call of the progress callback. -/
def relay_interval (W : Env) (callback : Nat) (context : Option Nat)
    (json_intervals : cJSON) (idx : Int) : List Effect :=
  let interval := cJSON_GetArrayItem json_intervals idx
  let sum := get_interval_sum interval
  match sum with
  | none => []
  | some _ =>
    let bytes := get_json_number sum (some "bytes") 0
    let bits_per_second := get_json_number sum (some "bits_per_second") 0
    let jitter := get_json_number sum (some "jitter_ms") 0
    let lost_packets := get_json_number sum (some "lost_packets") 0
    [Effect.progress callback context (idx + 1) (double_to_long W bytes) bits_per_second
      jitter (double_to_int W lost_packets) 0]

/-- The `for` loop of `bridge_reporter_callback`: `idx` runs from `first` up to
`interval_count - 1`. -/
def relay_loop (W : Env) (callback : Nat) (context : Option Nat) (json_intervals : cJSON)
    (first interval_count : Int) : List Effect :=
  ((List.range (interval_count - first).toNat).map
    (fun (k : Nat) =>
      relay_interval W callback context json_intervals (first + (k : Int)))).flatten

/-- The call `g_original_reporter_callback(test)` at the head of the relay, when a
reporter is saved. What the saved reporter does to the instance is the engine's
business; what it leaves in `test->json_intervals` is given with the event. -/
def call_original_reporter (test : Option Nat) (s : State) : List Effect :=
  match s.g_original_reporter_callback with
  | some fn => [Effect.original_reporter fn test]
  | none => []

/-- The static `bridge_reporter_callback(test)`. -/
def bridge_reporter_callback (W : Env) (test : Option Nat) (s : State) :
    State × List Effect :=
  let chained := call_original_reporter test s
  match s.g_progress_callback, test with
  | some callback, some p =>
    match (s.deref p).bind iperf_test.json_intervals with
    | none => (s, chained)
    | some json_intervals =>
      let interval_count := cJSON_GetArraySize json_intervals
      if interval_count ≤ s.g_last_reported_interval then (s, chained)
      else
        let emitted := relay_loop W callback s.g_progress_context json_intervals
          s.g_last_reported_interval interval_count
        ({ s with g_last_reported_interval := interval_count }, chained ++ emitted)
  | _, _ => (s, chained)

/-! ## Cancellation -/

/-- The bridge's `iperf3_request_client_cancel()`; the body runs under `g_client_mutex`. -/
def iperf3_request_client_cancel (W : Env) (s : State) : State :=
  match s.g_active_client_test with
  | some test =>
    let s := { s with g_cancel_client_requested := 1 }
    let s := s.update test (fun t => { t with done := 1 })
    let s := s.call test (.iperf_set_test_state W.CLIENT_TERMINATE)
    let sent := W.iperf_set_send_state (s.callsOf test) W.CLIENT_TERMINATE s.i_errno
    let s := s.call test (.iperf_set_send_state W.CLIENT_TERMINATE)
    { s with i_errno := sent.2 }
  | none => s

/-! ## The client run -/

/-- One event of the registered window, on the run whose instance is `test`: the
engine calls `test->reporter_callback(test)`, or another thread requests
cancellation. -/
def run_event (W : Env) (test : Nat) (s : State) : RunEvent → State × List Effect
  | RunEvent.cancel => (iperf3_request_client_cancel W s, [])
  | RunEvent.reporter json_intervals =>
    let s := s.update test (fun t => { t with json_intervals := json_intervals })
    match (s.deref test).bind iperf_test.reporter_callback with
    | some ReporterFn.bridge_reporter_callback => bridge_reporter_callback W (some test) s
    | some (ReporterFn.engine _) => (s, [])
    | none => (s, [])

/-- The events of the registered window, in order. -/
def run_events (W : Env) (test : Nat) : List RunEvent → State → State × List Effect
  | [], s => (s, [])
  | e :: es, s =>
    let r := run_event W test s e
    let rest := run_events W test es r.1
    (rest.1, r.2 ++ rest.2)

/-- Lines 143-160 of `iperf3_run_client_test`: defaults, client role, the test
parameters, JSON output, and the relay installed in place of the engine's reporter. -/
def configure_client_test (W : Env) (host : String) (port duration parallel : Int)
    (reverse : Bool) (test : Nat) (s : State) : State :=
  let s := (s.call test .iperf_defaults).update test
    (fun t => { t with reporter_callback := W.iperf_defaults_reporter })
  let s := s.call test (.iperf_set_test_role 'c')
  let s := s.call test (.iperf_set_test_server_hostname host)
  let s := s.call test (.iperf_set_test_server_port port)
  let s := s.call test (.iperf_set_test_duration duration)
  let s := s.call test (.iperf_set_test_num_streams parallel)
  let s := s.call test (.iperf_set_test_reverse (if reverse then 1 else 0))
  let s := s.call test (.iperf_set_test_json_output 1)
  let s := { s with
    g_original_reporter_callback := (s.deref test).bind iperf_test.reporter_callback,
    g_last_reported_interval := 0 }
  s.update test (fun t => { t with reporter_callback := some .bridge_reporter_callback })

/-- The engine's `set_protocol(test, p)` as the bridge sees it: the value returned,
with the call recorded and `i_errno` as the engine leaves it. -/
def set_protocol (W : Env) (test : Nat) (p : Protocol) (s : State) : Int × State :=
  let r := W.set_protocol (s.callsOf test) p s.i_errno
  (r.1, { s.call test (.set_protocol p) with i_errno := r.2 })

/-- Lines 165-216 of `iperf3_run_client_test`: the transport and the rate. Either the
function returns here (`Sum.inl`, the envelope and the state), or the run goes on. -/
def apply_transport (W : Env) (use_udp : Bool) (bandwidth : Int) (test : Nat)
    (result : Iperf3Result) (s : State) : (Iperf3Result × State) ⊕ State :=
  if use_udp then
    let r := set_protocol W test .Pudp s
    let proto_result := r.1
    let s := r.2
    if proto_result ≠ 0 then
      let err_msg := W.iperf_strerror s.i_errno
      let result := { result with
        success := false,
        errorMessage := some (err_msg.getD "Failed to set UDP protocol"),
        errorCode := proto_result }
      Sum.inl (result, iperf_free_test s test)
    else
      let s := s.call test (.iperf_set_test_blksize 0)
      let s := if bandwidth > 0 then s.call test (.iperf_set_test_rate bandwidth)
        else s.call test (.iperf_set_test_rate 1000000)
      Sum.inr (s.call test .iperf_get_test_rate)
  else
    let r := set_protocol W test .Ptcp s
    let proto_result := r.1
    let s := r.2
    if proto_result ≠ 0 then
      let err_msg := W.iperf_strerror s.i_errno
      let result := { result with
        success := false,
        errorMessage := some (err_msg.getD "Failed to set TCP protocol"),
        errorCode := proto_result }
      Sum.inl (result, iperf_free_test s test)
    else
      Sum.inr (if bandwidth > 0 then s.call test (.iperf_set_test_rate bandwidth) else s)

/-- What lines 218-236 leave for the rest of the function. -/
structure RunOutcome where
  result_code : Int
  final_errno : Int
  was_cancelled : Int

/-- Lines 218-236 of `iperf3_run_client_test`: register the instance and clear the
cancellation flag (under `g_client_mutex`), reset `i_errno`, run the engine, read
`i_errno`, then read the flag and deregister (under `g_client_mutex`). Cancellation
requests that arrive anywhere between the two critical sections are events of the
run's script. -/
def run_registered (W : Env) (test : Nat) (s : State) : RunOutcome × State × List Effect :=
  let s := { s with g_active_client_test := some test, g_cancel_client_requested := 0 }
  let s := { s with i_errno := W.IENONE }
  let script := W.iperf_run_client (s.callsOf test)
  let s := s.call test .iperf_run_client
  let r := run_events W test script.events s
  let s := { r.1 with i_errno := script.i_errno }
  let result_code := script.result_code
  let final_errno := s.i_errno
  let was_cancelled := s.g_cancel_client_requested
  let s := { s with g_active_client_test := none, g_cancel_client_requested := 0 }
  ({ result_code := result_code, final_errno := final_errno, was_cancelled := was_cancelled },
    s, r.2)

/-- Lines 309-390 of `iperf3_run_client_test`: the outcome written into the envelope. -/
def classify (W : Env) (test : Nat) (o : RunOutcome) (result : Iperf3Result) (s : State) :
    Iperf3Result × State :=
  let cancelled := o.was_cancelled ≠ 0
  if cancelled then
    ({ result with
        success := false,
        errorMessage := some "Test cancelled by user",
        errorCode := W.IECLIENTTERM },
      { s with i_errno := W.IECLIENTTERM })
  else if o.result_code = 0 ∧ o.final_errno = 0 then
    let result := { result with success := true }
    let jsonOutput := W.iperf_get_test_json_output_string (s.callsOf test)
    let s := s.call test .iperf_get_test_json_output_string
    match jsonOutput with
    | some json =>
      ({ result with
          jsonOutput := some json,
          sentBitsPerSecond := 0, receivedBitsPerSecond := 0, sendMbps := 0,
          receiveMbps := 0, rtt := 0, jitter := 0 }, s)
    | none =>
      ({ result with
          success := false,
          errorMessage := some "No JSON output available",
          errorCode := -1 }, s)
  else if o.result_code = 0 ∧ o.final_errno ≠ 0 then
    let error := W.iperf_strerror o.final_errno
    let result := { result with errorMessage := some (error.getD "Test encountered an error") }
    ({ result with success := false, errorCode := o.final_errno }, s)
  else
    let error := W.iperf_strerror o.final_errno
    let result := { result with errorMessage := some (error.getD "iperf3 test failed") }
    ({ result with success := false, errorCode := o.result_code }, s)

/-- Lines 392-402 of `iperf3_run_client_test`: clear `i_errno`, release the instance,
reset the relay. -/
def cleanup_client (W : Env) (test : Nat) (s : State) : State :=
  let s := { s with i_errno := W.IENONE }
  let s := iperf_free_test s test
  { s with
    g_original_reporter_callback := none,
    g_last_reported_interval := 0,
    g_progress_callback := none,
    g_progress_context := none }

/-- Lines 125-216 of `iperf3_run_client_test`, up to the registration: either the
function returns early (`Sum.inl`, the envelope and the state), or it goes on with
the configured instance. -/
def client_setup (W : Env) (host : String) (port duration parallel : Int)
    (reverse use_udp : Bool) (bandwidth : Int) (progressCallback : Option Nat)
    (callbackContext : Option Nat) (s : State) : (Iperf3Result × State) ⊕ (Nat × State) :=
  let result := Iperf3Result.zeroed
  let s := { s with g_progress_callback := progressCallback, g_progress_context := callbackContext }
  let created := W.iperf_new_test s.i_errno
  let s := { s with i_errno := created.2 }
  if created.1 = false then
    Sum.inl ({ result with success := false, errorMessage := some "Failed to create iperf3 test" }, s)
  else
    let test := s.heap.length
    let s := { s with heap := s.heap ++ [some iperf_test.fresh] }
    let s := configure_client_test W host port duration parallel reverse test s
    match apply_transport W use_udp bandwidth test result s with
    | Sum.inl early => Sum.inl early
    | Sum.inr s => Sum.inr (test, s)

/-- The bridge's `iperf3_run_client_test`: the envelope returned, the state left
behind, and what was done to the outside meanwhile. -/
def iperf3_run_client_test (W : Env) (host : String) (port duration parallel : Int)
    (reverse use_udp : Bool) (bandwidth : Int) (progressCallback : Option Nat)
    (callbackContext : Option Nat) (s : State) : Iperf3Result × State × List Effect :=
  match client_setup W host port duration parallel reverse use_udp bandwidth progressCallback
      callbackContext s with
  | Sum.inl early => (early.1, early.2, [])
  | Sum.inr (test, s) =>
    let ran := run_registered W test s
    let classified := classify W test ran.1 Iperf3Result.zeroed ran.2.1
    (classified.1, cleanup_client W test classified.2, ran.2.2)

/-! ## The server -/

/-- The bridge's `iperf3_start_server_test(port, use_udp)`. -/
def iperf3_start_server_test (W : Env) (port : Int) (use_udp : Bool) (s : State) : Bool × State :=
  if s.g_server_running then (false, s)
  else
    let created := W.iperf_new_test s.i_errno
    let s := { s with i_errno := created.2 }
    if created.1 = false then (false, { s with g_server_test := none })
    else
      let test := s.heap.length
      let s := { s with heap := s.heap ++ [some iperf_test.fresh], g_server_test := some test }
      let s := (s.call test .iperf_defaults).update test
        (fun t => { t with reporter_callback := W.iperf_defaults_reporter })
      let s := s.call test (.iperf_set_test_role 's')
      let s := s.call test (.iperf_set_test_server_port port)
      let s := if use_udp then (set_protocol W test .Pudp s).2 else (set_protocol W test .Ptcp s).2
      let created_thread := W.pthread_create (s.callsOf test)
      if created_thread.1 ≠ 0 then
        (false, { iperf_free_test s test with g_server_test := none })
      else
        let s := { s.call test .iperf_run_server with g_server_thread := created_thread.2 }
        (true, { s with g_server_running := true })

/-- The bridge's `iperf3_stop_server_test()`. Whether `pthread_join` returns is up to
the server thread and is not modelled. -/
def iperf3_stop_server_test (W : Env) (s : State) : Bool × State × List Effect :=
  match s.g_server_running, s.g_server_test with
  | true, some test =>
    let cancel := if W.supports_pthread_cancel then [Effect.pthread_cancel s.g_server_thread]
      else []
    let s := iperf_free_test s test
    (true, { s with g_server_test := none, g_server_running := false },
      cancel ++ [Effect.pthread_join s.g_server_thread])
  | _, _ => (false, s, [])

/-- The bridge's `iperf3_get_version_string()`. -/
def iperf3_get_version_string (W : Env) : String :=
  W.IPERF_VERSION

/-! ## A concrete engine for the examples -/

/-- An environment with the constants of iperf3 (`IENONE = 0`, `IECLIENTTERM = 119`,
`CLIENT_TERMINATE = 12`, version "3.19" as in `iperf_config.h`) on a platform with a
32-bit `int` and a 64-bit `long`: `iperf_new_test` succeeds when `created` and else leaves
`IENEWTEST = 100` in `i_errno`, `set_protocol` returns `proto_result` (leaving
`IEPROTOCOL = 20` when that is not 0), the run follows `script`, and the JSON result
string is `json`. -/
def Env.sample (created : Bool) (proto_result : Int) (script : RunScript)
    (json : Option String) : Env :=
  { IENONE := 0
    IECLIENTTERM := 119
    CLIENT_TERMINATE := 12
    IPERF_VERSION := "3.19"
    INT_MIN := -2147483648
    INT_MAX := 2147483647
    LONG_MIN := -9223372036854775808
    LONG_MAX := 9223372036854775807
    iperf_strerror := fun code => if code = 0 then some "no error" else some "engine error"
    iperf_new_test := fun e => if created then (true, e) else (false, 100)
    iperf_defaults_reporter := some (ReporterFn.engine 0)
    set_protocol := fun _ _ e => if proto_result = 0 then (0, e) else (proto_result, 20)
    iperf_run_client := fun _ => script
    iperf_set_send_state := fun _ _ e => (0, e)
    iperf_get_test_json_output_string := fun _ => json
    pthread_create := fun _ => (0, 1)
    supports_pthread_cancel := true }

/-- The interval indices passed to the progress callback, in order. -/
def progress_indices : List Effect → List Int
  | [] => []
  | Effect.progress _ _ interval _ _ _ _ _ :: rest => interval :: progress_indices rest
  | _ :: rest => progress_indices rest

/-! ## Vocabulary of the statements about the relay -/

/-- Whether the interval record at a 0-based position has a summary object. -/
def has_summary (items : List cJSON) (idx : Nat) : Bool :=
  (get_interval_sum items[idx]?).isSome

/-- The indices `idx + 1` of the positions `first ≤ idx < first + count` whose record
has a summary object, in ascending order. -/
def summary_indices (items : List cJSON) (first count : Nat) : List Int :=
  ((List.range' first count).filter (has_summary items)).map (fun (idx : Nat) => (idx : Int) + 1)

/-- The interval lists the relay is shown by the reporter events, in order. -/
def interval_snapshots : List RunEvent → List (List cJSON)
  | [] => []
  | RunEvent.reporter (some (cJSON.array items)) :: es => items :: interval_snapshots es
  | _ :: es => interval_snapshots es

/-- An event of a run whose interval list, when there is one, is a JSON array. -/
def RunEvent.intervals_are_array : RunEvent → Prop
  | RunEvent.cancel => True
  | RunEvent.reporter none => True
  | RunEvent.reporter (some (cJSON.array _)) => True
  | RunEvent.reporter (some _) => False

/-- The relay is in place for the run on `test`: a progress callback is stored, the
instance's reporter is the relay, and `n` intervals have been reported. -/
def RelayReady (s : State) (test callback n : Nat) : Prop :=
  s.g_progress_callback = some callback
    ∧ (s.deref test).bind iperf_test.reporter_callback
        = some ReporterFn.bridge_reporter_callback
    ∧ s.g_last_reported_interval = (n : Int)

/-! ## Vocabulary of the statements about the setup and the notifications -/

/-- The calls lines 143-154 of `iperf3_run_client_test` make on the fresh instance. -/
def client_config_calls (host : String) (port duration parallel : Int) (reverse : Bool) :
    List EngineCall :=
  [EngineCall.iperf_defaults, EngineCall.iperf_set_test_role 'c',
    EngineCall.iperf_set_test_server_hostname host,
    EngineCall.iperf_set_test_server_port port,
    EngineCall.iperf_set_test_duration duration,
    EngineCall.iperf_set_test_num_streams parallel,
    EngineCall.iperf_set_test_reverse (if reverse then 1 else 0),
    EngineCall.iperf_set_test_json_output 1]

/-- The transport a run asks `set_protocol` for. -/
def selected_protocol (use_udp : Bool) : Protocol :=
  if use_udp then Protocol.Pudp else Protocol.Ptcp

/-- The text a run uses when `set_protocol` fails and the engine has no description. -/
def protocol_failure_text (use_udp : Bool) : String :=
  if use_udp then "Failed to set UDP protocol" else "Failed to set TCP protocol"

/-- Whether an effect is a call of the progress callback. -/
def Effect.is_progress : Effect → Bool
  | Effect.progress _ _ _ _ _ _ _ _ => true
  | _ => false

/-- The interval index of a call of the progress callback. -/
def Effect.interval_index : Effect → Option Int
  | Effect.progress _ _ interval _ _ _ _ _ => some interval
  | _ => none

/-- The summary's numeric value for a key when present, and 0 when the key is missing
or its value is not a number. -/
def summary_value (sum : cJSON) (key : String) : Rat :=
  match cJSON_GetObjectItemCaseSensitive sum key with
  | some (cJSON.number v) => v
  | _ => 0

/-- The variables of the bridge and the engine instances, without the engine's
`i_errno`. -/
def State.without_errno (s : State) : State :=
  { s with i_errno := 0 }

/-! ## Auxiliary lemmas -/

section helpers

theorem bridge_reporter_callback_active (W : Env) (test : Option Nat) (s : State) :
    (bridge_reporter_callback W test s).1.g_active_client_test = s.g_active_client_test := by
  unfold bridge_reporter_callback
  split
  · split
    · rfl
    · dsimp only
      split <;> rfl
  · rfl

theorem bridge_reporter_callback_cancel_flag (W : Env) (test : Option Nat) (s : State) :
    (bridge_reporter_callback W test s).1.g_cancel_client_requested
      = s.g_cancel_client_requested := by
  unfold bridge_reporter_callback
  split
  · split
    · rfl
    · dsimp only
      split <;> rfl
  · rfl

theorem cancel_active (W : Env) (s : State) :
    (iperf3_request_client_cancel W s).g_active_client_test = s.g_active_client_test := by
  unfold iperf3_request_client_cancel
  split
  · rfl
  · rfl

theorem cancel_flag_of_active (W : Env) (s : State) (test : Nat)
    (h : s.g_active_client_test = some test) :
    (iperf3_request_client_cancel W s).g_cancel_client_requested = 1 := by
  unfold iperf3_request_client_cancel
  rw [h]
  rfl

theorem run_event_active (W : Env) (test : Nat) (s : State) (e : RunEvent) :
    (run_event W test s e).1.g_active_client_test = s.g_active_client_test := by
  cases e with
  | cancel => exact cancel_active W s
  | reporter ji =>
    unfold run_event
    dsimp only
    split
    · rw [bridge_reporter_callback_active]; rfl
    · rfl
    · rfl

theorem run_event_reporter_flag (W : Env) (test : Nat) (s : State) (ji : Option cJSON) :
    (run_event W test s (RunEvent.reporter ji)).1.g_cancel_client_requested
      = s.g_cancel_client_requested := by
  unfold run_event
  dsimp only
  split
  · rw [bridge_reporter_callback_cancel_flag]; rfl
  · rfl
  · rfl

theorem run_events_active (W : Env) (test : Nat) (es : List RunEvent) (s : State) :
    (run_events W test es s).1.g_active_client_test = s.g_active_client_test := by
  induction es generalizing s with
  | nil => rfl
  | cons e es ih =>
    unfold run_events
    dsimp only
    rw [ih, run_event_active]

/-- Once the flag is set inside the window, no event of the window clears it. -/
theorem run_events_flag_stays (W : Env) (test : Nat) (es : List RunEvent) (s : State)
    (p : Nat) (hp : s.g_active_client_test = some p) (h : s.g_cancel_client_requested = 1) :
    (run_events W test es s).1.g_cancel_client_requested = 1 := by
  induction es generalizing s with
  | nil => exact h
  | cons e es ih =>
    unfold run_events
    dsimp only
    apply ih
    · rw [run_event_active]; exact hp
    · cases e with
      | cancel => exact cancel_flag_of_active W s p hp
      | reporter ji => rw [run_event_reporter_flag]; exact h

/-- A cancellation request inside the window leaves the flag set at its end. -/
theorem run_events_flag_of_cancel (W : Env) (test : Nat) (es : List RunEvent) (s : State)
    (p : Nat) (hp : s.g_active_client_test = some p) (h : RunEvent.cancel ∈ es) :
    (run_events W test es s).1.g_cancel_client_requested = 1 := by
  induction es generalizing s with
  | nil => cases h
  | cons e es ih =>
    unfold run_events
    dsimp only
    cases e with
    | cancel =>
      apply run_events_flag_stays W test es _ p
      · rw [run_event_active]; exact hp
      · exact cancel_flag_of_active W s p hp
    | reporter ji =>
      apply ih
      · rw [run_event_active]; exact hp
      · cases h with
        | tail _ h2 => exact h2

/-- Without a cancellation request inside the window the flag is as at its start. -/
theorem run_events_flag_of_no_cancel (W : Env) (test : Nat) (es : List RunEvent) (s : State)
    (h : RunEvent.cancel ∉ es) :
    (run_events W test es s).1.g_cancel_client_requested = s.g_cancel_client_requested := by
  induction es generalizing s with
  | nil => rfl
  | cons e es ih =>
    unfold run_events
    dsimp only
    cases e with
    | cancel => exact absurd (List.mem_cons_self _ _) h
    | reporter ji =>
      rw [ih _ (fun hm => h (List.mem_cons_of_mem _ hm)), run_event_reporter_flag]

theorem run_registered_cancelled (W : Env) (test : Nat) (s : State)
    (h : RunEvent.cancel ∈ (W.iperf_run_client (s.callsOf test)).events) :
    (run_registered W test s).1.was_cancelled = 1 :=
  run_events_flag_of_cancel W test _ _ test rfl h

theorem run_registered_not_cancelled (W : Env) (test : Nat) (s : State)
    (h : RunEvent.cancel ∉ (W.iperf_run_client (s.callsOf test)).events) :
    (run_registered W test s).1.was_cancelled = 0 :=
  run_events_flag_of_no_cancel W test _ _ h

theorem run_registered_result_code (W : Env) (test : Nat) (s : State) :
    (run_registered W test s).1.result_code
      = (W.iperf_run_client (s.callsOf test)).result_code := rfl

theorem run_registered_final_errno (W : Env) (test : Nat) (s : State) :
    (run_registered W test s).1.final_errno
      = (W.iperf_run_client (s.callsOf test)).i_errno := rfl

end helpers

section heap

theorem State.deref_update (s : State) (p : Nat) (f : iperf_test → iperf_test) :
    (s.update p f).deref p = (s.deref p).map f := by
  unfold State.deref State.update
  simp only [List.getElem?_modify_eq]
  cases s.heap[p]? with
  | none => rfl
  | some o => cases o <;> rfl

theorem State.deref_call (s : State) (p : Nat) (c : EngineCall) :
    (s.call p c).deref p = (s.deref p).map (fun t => { t with calls := t.calls ++ [c] }) :=
  State.deref_update s p _

theorem State.callsOf_call (s : State) (p : Nat) (c : EngineCall) (t : iperf_test)
    (h : s.deref p = some t) : (s.call p c).callsOf p = t.calls ++ [c] := by
  unfold State.callsOf
  rw [State.deref_call, h]
  rfl

theorem State.callsOf_of_deref (s : State) (p : Nat) (t : iperf_test)
    (h : s.deref p = some t) : s.callsOf p = t.calls := by
  unfold State.callsOf
  rw [h]

theorem State.deref_alloc (s : State) (t : iperf_test) :
    State.deref { s with heap := s.heap ++ [some t] } s.heap.length = some t := by
  unfold State.deref
  simp

end heap

section setup

theorem State.deref_heap_eq (s s2 : State) (p : Nat) (h : s2.heap = s.heap) :
    s2.deref p = s.deref p := by
  unfold State.deref
  rw [h]

theorem configure_client_test_deref (W : Env) (host : String) (port duration parallel : Int)
    (reverse : Bool) (test : Nat) (s : State) (t : iperf_test) (h : s.deref test = some t) :
    (configure_client_test W host port duration parallel reverse test s).deref test
      = some { calls := t.calls ++ [EngineCall.iperf_defaults, EngineCall.iperf_set_test_role 'c',
                EngineCall.iperf_set_test_server_hostname host,
                EngineCall.iperf_set_test_server_port port,
                EngineCall.iperf_set_test_duration duration,
                EngineCall.iperf_set_test_num_streams parallel,
                EngineCall.iperf_set_test_reverse (if reverse then 1 else 0),
                EngineCall.iperf_set_test_json_output 1],
               reporter_callback := some ReporterFn.bridge_reporter_callback,
               json_intervals := t.json_intervals,
               done := t.done } := by
  unfold configure_client_test
  dsimp only
  have hrec : ∀ (u : State) (a : Option ReporterFn) (b : Int),
      State.deref { u with g_original_reporter_callback := a, g_last_reported_interval := b }
        test = u.deref test := fun _ _ _ => rfl
  rw [State.deref_update, hrec]
  simp only [State.deref_call, State.deref_update, h, Option.map_some', List.append_assoc,
    List.singleton_append, List.cons_append, List.nil_append]

end setup

section transport

theorem set_protocol_deref (W : Env) (test : Nat) (p : Protocol) (s : State) :
    (set_protocol W test p s).2.deref test
      = (s.deref test).map
          (fun t => { t with calls := t.calls ++ [EngineCall.set_protocol p] }) :=
  State.deref_call s test _

theorem apply_transport_udp_calls (W : Env) (bandwidth : Int) (test : Nat)
    (result : Iperf3Result) (s s2 : State) (t : iperf_test) (hd : s.deref test = some t)
    (h : apply_transport W true bandwidth test result s = Sum.inr s2) :
    s2.callsOf test
      = t.calls ++ [EngineCall.set_protocol Protocol.Pudp, EngineCall.iperf_set_test_blksize 0,
          EngineCall.iperf_set_test_rate (if bandwidth > 0 then bandwidth else 1000000),
          EngineCall.iperf_get_test_rate] := by
  unfold apply_transport at h
  simp only [if_true] at h
  split at h
  · cases h
  · injection h with h
    subst h
    unfold State.callsOf
    by_cases hb : bandwidth > 0
    · simp only [hb, if_true, State.deref_call, set_protocol_deref, hd, Option.map_some',
        List.append_assoc, List.singleton_append, List.cons_append, List.nil_append]
    · simp only [hb, if_false, State.deref_call, set_protocol_deref, hd, Option.map_some',
        List.append_assoc, List.singleton_append, List.cons_append, List.nil_append]

theorem client_setup_inr (W : Env) (host : String) (port duration parallel : Int)
    (reverse use_udp : Bool) (bandwidth : Int) (cb ctx : Option Nat) (s : State)
    (test : Nat) (s1 : State)
    (h : client_setup W host port duration parallel reverse use_udp bandwidth cb ctx s
      = Sum.inr (test, s1)) :
    test = s.heap.length
      ∧ apply_transport W use_udp bandwidth s.heap.length Iperf3Result.zeroed
          (configure_client_test W host port duration parallel reverse s.heap.length
            { s with
              g_progress_callback := cb, g_progress_context := ctx,
              i_errno := (W.iperf_new_test s.i_errno).2,
              heap := s.heap ++ [some iperf_test.fresh] }) = Sum.inr s1 := by
  unfold client_setup at h
  dsimp only at h
  split at h
  · cases h
  · split at h
    · cases h
    · next s2 heq =>
      injection h with h
      injection h with h1 h2
      subst h1 h2
      exact ⟨rfl, heq⟩

end transport

section relay

theorem progress_indices_append (a b : List Effect) :
    progress_indices (a ++ b) = progress_indices a ++ progress_indices b := by
  induction a with
  | nil => rfl
  | cons e a ih =>
    cases e <;> simp [progress_indices, ih]

theorem progress_indices_call_original_reporter (test : Option Nat) (s : State) :
    progress_indices (call_original_reporter test s) = [] := by
  unfold call_original_reporter
  split <;> rfl

theorem relay_interval_indices (W : Env) (cb : Nat) (ctx : Option Nat) (items : List cJSON) (i : Nat) :
    progress_indices (relay_interval W cb ctx (cJSON.array items) (i : Int))
      = if has_summary items i then [(i : Int) + 1] else [] := by
  unfold relay_interval has_summary cJSON_GetArrayItem
  have hneg : ¬ ((i : Int) < 0) := by omega
  simp only [hneg, if_false, Int.toNat_ofNat]
  cases hsum : get_interval_sum items[i]? with
  | none => rfl
  | some v => rfl

theorem relay_positions_indices (W : Env) (cb : Nat) (ctx : Option Nat) (items : List cJSON) (n : Nat)
    (l : List Nat) :
    progress_indices ((l.map
        (fun (k : Nat) => relay_interval W cb ctx (cJSON.array items) ((n : Int) + (k : Int)))).flatten)
      = (((l.map (n + ·)).filter (has_summary items)).map (fun (idx : Nat) => (idx : Int) + 1)) := by
  induction l with
  | nil => rfl
  | cons k l ih =>
    have hcast : (n : Int) + (k : Int) = ((n + k : Nat) : Int) := by push_cast; rfl
    simp only [List.map_cons, List.flatten_cons, progress_indices_append, ih, hcast,
      relay_interval_indices, List.filter_cons]
    by_cases h : has_summary items (n + k) = true
    · simp [h]
    · simp [h]

theorem relay_loop_indices (W : Env) (cb : Nat) (ctx : Option Nat) (items : List cJSON) (n m : Nat) :
    progress_indices (relay_loop W cb ctx (cJSON.array items) (n : Int) (m : Int))
      = summary_indices items n (m - n) := by
  unfold relay_loop summary_indices
  have hk : ((m : Int) - (n : Int)).toNat = m - n := by omega
  rw [hk, relay_positions_indices, List.range'_eq_map_range]

end relay

section window

theorem State.deref_update_other (s : State) (q test : Nat) (f : iperf_test → iperf_test) :
    (s.update q f).deref test = if q = test then (s.deref test).map f else s.deref test := by
  unfold State.deref State.update
  simp only [List.getElem?_modify]
  by_cases hq : q = test
  · simp only [hq, if_true]
    cases s.heap[test]? with
    | none => rfl
    | some o => cases o <;> rfl
  · simp only [hq, if_false]
    cases s.heap[test]? with
    | none => rfl
    | some o => rfl

theorem State.update_reporter_callback (s : State) (q test : Nat)
    (f : iperf_test → iperf_test)
    (hf : ∀ t, (f t).reporter_callback = t.reporter_callback) :
    ((s.update q f).deref test).bind iperf_test.reporter_callback
      = (s.deref test).bind iperf_test.reporter_callback := by
  rw [State.deref_update_other]
  by_cases hq : q = test
  · simp only [hq, if_true]
    cases s.deref test with
    | none => rfl
    | some t => exact hf t
  · simp only [hq, if_false]

theorem cancel_reporter_callback (W : Env) (s : State) (test : Nat) :
    ((iperf3_request_client_cancel W s).deref test).bind iperf_test.reporter_callback
      = (s.deref test).bind iperf_test.reporter_callback := by
  unfold iperf3_request_client_cancel
  split
  · next p _ =>
    have hrec : ∀ (u : State) (e : Int), State.deref { u with i_errno := e } test
        = u.deref test := fun _ _ => rfl
    have hrec2 : ∀ (u : State) (e : Int),
        State.deref { u with g_cancel_client_requested := e } test = u.deref test :=
      fun _ _ => rfl
    dsimp only
    rw [hrec]
    unfold State.call
    rw [State.update_reporter_callback _ _ _ _ (by intro t; rfl),
      State.update_reporter_callback _ _ _ _ (by intro t; rfl),
      State.update_reporter_callback _ _ _ _ (by intro t; rfl), hrec2]
  · rfl

theorem cancel_relay_fields (W : Env) (s : State) :
    (iperf3_request_client_cancel W s).g_progress_callback = s.g_progress_callback
      ∧ (iperf3_request_client_cancel W s).g_last_reported_interval
          = s.g_last_reported_interval := by
  unfold iperf3_request_client_cancel
  split
  · exact ⟨rfl, rfl⟩
  · exact ⟨rfl, rfl⟩

theorem RelayReady.cancel (W : Env) (s : State) (test cb n : Nat)
    (h : RelayReady s test cb n) : RelayReady (iperf3_request_client_cancel W s) test cb n := by
  obtain ⟨h1, h2, h3⟩ := h
  refine ⟨?_, ?_, ?_⟩
  · rw [(cancel_relay_fields W s).1]; exact h1
  · rw [cancel_reporter_callback]; exact h2
  · rw [(cancel_relay_fields W s).2]; exact h3

/-- A reporter event without an interval list: nothing is emitted and the counter
stays. -/
theorem run_event_reporter_none (W : Env) (s : State) (test cb n : Nat)
    (h : RelayReady s test cb n) :
    RelayReady (run_event W test s (RunEvent.reporter none)).1 test cb n
      ∧ progress_indices (run_event W test s (RunEvent.reporter none)).2 = [] := by
  obtain ⟨h1, h2, h3⟩ := h
  have hrep : ((s.update test (fun t => { t with json_intervals := none })).deref test).bind
      iperf_test.reporter_callback = some ReporterFn.bridge_reporter_callback := by
    rw [State.update_reporter_callback _ _ _ _ (by intro t; rfl)]; exact h2
  have hji : ((s.update test (fun t => { t with json_intervals := none })).deref test).bind
      iperf_test.json_intervals = none := by
    rw [State.deref_update]
    cases s.deref test with
    | none => rfl
    | some t => rfl
  have hcb : (s.update test (fun t => { t with json_intervals := none })).g_progress_callback
      = some cb := h1
  unfold run_event
  simp only [hrep]
  unfold bridge_reporter_callback
  simp only [hcb, hji]
  exact ⟨⟨h1, hrep, h3⟩, progress_indices_call_original_reporter _ _⟩

/-- A reporter event with an interval list at least as long as the counter: the
positions from the counter on are handled, and the counter becomes the length. -/
theorem run_event_reporter_array (W : Env) (s : State) (test cb n : Nat)
    (items : List cJSON) (h : RelayReady s test cb n) (hn : n ≤ items.length) :
    RelayReady (run_event W test s (RunEvent.reporter (some (cJSON.array items)))).1 test cb
        items.length
      ∧ progress_indices (run_event W test s (RunEvent.reporter (some (cJSON.array items)))).2
        = summary_indices items n (items.length - n) := by
  obtain ⟨h1, h2, h3⟩ := h
  have hrep : ((s.update test
      (fun t => { t with json_intervals := some (cJSON.array items) })).deref test).bind
      iperf_test.reporter_callback = some ReporterFn.bridge_reporter_callback := by
    rw [State.update_reporter_callback _ _ _ _ (by intro t; rfl)]; exact h2
  have hji : ((s.update test
      (fun t => { t with json_intervals := some (cJSON.array items) })).deref test).bind
      iperf_test.json_intervals = some (cJSON.array items) := by
    rw [State.deref_update]
    cases hd : s.deref test with
    | none => rw [hd] at h2; cases h2
    | some t => rfl
  have hcb : (s.update test
      (fun t => { t with json_intervals := some (cJSON.array items) })).g_progress_callback
      = some cb := h1
  have hlast : (s.update test
      (fun t => { t with json_intervals := some (cJSON.array items) })).g_last_reported_interval
      = (n : Int) := h3
  unfold run_event
  simp only [hrep]
  unfold bridge_reporter_callback
  simp only [hcb, hji, hlast, cJSON_GetArraySize]
  by_cases hle : (items.length : Int) ≤ (n : Int)
  · have heq : items.length = n := by omega
    simp only [hle, if_true]
    refine ⟨⟨h1, hrep, ?_⟩, ?_⟩
    · rw [hlast, heq]
    · rw [progress_indices_call_original_reporter, heq, Nat.sub_self]
      rfl
  · simp only [hle, if_false]
    refine ⟨⟨rfl, hrep, rfl⟩, ?_⟩
    rw [progress_indices_append, progress_indices_call_original_reporter, relay_loop_indices]
    rfl

end window

section growth

theorem getLast?_cons_getD {α : Type} (a b : α) (l : List α) :
    (b :: l).getLast?.getD a = l.getLast?.getD b := by
  cases l with
  | nil => rfl
  | cons c l =>
    rw [List.getLast?_cons_cons]
    simp [List.getLast?_eq_getLast]

theorem chain_prefix_last (a : List cJSON) (l : List (List cJSON))
    (h : List.Chain (fun x y => x <+: y) a l) : a <+: l.getLast?.getD a := by
  induction l generalizing a with
  | nil => exact List.prefix_refl a
  | cons b l ih =>
    rw [List.chain_cons] at h
    rw [getLast?_cons_getD]
    exact h.1.trans (ih b h.2)

theorem has_summary_prefix (items final : List cJSON) (h : items <+: final) (idx : Nat)
    (hidx : idx < items.length) : has_summary items idx = has_summary final idx := by
  obtain ⟨t, rfl⟩ := h
  unfold has_summary
  rw [List.getElem?_append_left hidx]

theorem summary_indices_prefix (items final : List cJSON) (h : items <+: final) (a k : Nat)
    (hk : a + k ≤ items.length) : summary_indices items a k = summary_indices final a k := by
  unfold summary_indices
  congr 1
  apply List.filter_congr
  intro idx hidx
  rw [List.mem_range'_1] at hidx
  exact has_summary_prefix items final h idx (by omega)

theorem summary_indices_append (final : List cJSON) (a k1 k2 : Nat) :
    summary_indices final a k1 ++ summary_indices final (a + k1) k2
      = summary_indices final a (k1 + k2) := by
  unfold summary_indices
  rw [← List.map_append, ← List.filter_append, List.range'_append_1, Nat.add_comm k2 k1]

theorem interval_snapshots_cancel (es : List RunEvent) :
    interval_snapshots (RunEvent.cancel :: es) = interval_snapshots es := by
  simp [interval_snapshots]

theorem interval_snapshots_none (es : List RunEvent) :
    interval_snapshots (RunEvent.reporter none :: es) = interval_snapshots es := by
  simp [interval_snapshots]

/-- The window as a whole: the counter ends at the length of the last interval list
shown, and the indices emitted are those of the records with a summary object from
the counter's start on. -/
theorem run_events_indices (W : Env) (test cb : Nat) (es : List RunEvent) :
    ∀ (s : State) (prev : List cJSON),
      (∀ e ∈ es, RunEvent.intervals_are_array e) →
      List.Chain (fun x y => x <+: y) prev (interval_snapshots es) →
      RelayReady s test cb prev.length →
      RelayReady (run_events W test es s).1 test cb
          ((interval_snapshots es).getLast?.getD prev).length
        ∧ progress_indices (run_events W test es s).2
          = summary_indices ((interval_snapshots es).getLast?.getD prev) prev.length
              (((interval_snapshots es).getLast?.getD prev).length - prev.length) := by
  induction es with
  | nil =>
    intro s prev _ _ hready
    refine ⟨hready, ?_⟩
    simp [run_events, interval_snapshots, progress_indices, summary_indices]
  | cons e es ih =>
    intro s prev hwf hchain hready
    have hwf2 : ∀ e2 ∈ es, RunEvent.intervals_are_array e2 :=
      fun e2 h2 => hwf e2 (List.mem_cons_of_mem _ h2)
    have hhead : RunEvent.intervals_are_array e := hwf e (List.mem_cons_self _ _)
    unfold run_events
    dsimp only
    rw [progress_indices_append]
    cases e with
    | cancel =>
      rw [interval_snapshots_cancel] at hchain ⊢
      have hstep : RelayReady (run_event W test s RunEvent.cancel).1 test cb prev.length :=
        RelayReady.cancel W s test cb prev.length hready
      obtain ⟨hr, hi⟩ := ih _ prev hwf2 hchain hstep
      exact ⟨hr, by rw [hi]; rfl⟩
    | reporter ji =>
      cases ji with
      | none =>
        rw [interval_snapshots_none] at hchain ⊢
        obtain ⟨hstep, hnone⟩ := run_event_reporter_none W s test cb prev.length hready
        obtain ⟨hr, hi⟩ := ih _ prev hwf2 hchain hstep
        exact ⟨hr, by rw [hi, hnone]; rfl⟩
      | some j =>
        cases j with
        | array items =>
          have hsnap : interval_snapshots (RunEvent.reporter (some (cJSON.array items)) :: es)
              = items :: interval_snapshots es := rfl
          rw [hsnap] at hchain ⊢
          rw [List.chain_cons] at hchain
          rw [getLast?_cons_getD]
          have hlen : prev.length ≤ items.length := hchain.1.length_le
          obtain ⟨hstep, hemit⟩ := run_event_reporter_array W s test cb prev.length items
            hready hlen
          obtain ⟨hr, hi⟩ := ih _ items hwf2 hchain.2 hstep
          refine ⟨hr, ?_⟩
          have hfinal := chain_prefix_last items (interval_snapshots es) hchain.2
          have hlen2 := hfinal.length_le
          obtain ⟨k1, hk1⟩ := Nat.exists_eq_add_of_le hlen
          obtain ⟨k2, hk2⟩ := Nat.exists_eq_add_of_le hlen2
          have e1 : items.length - prev.length = k1 := by omega
          have e2 : ((interval_snapshots es).getLast?.getD items).length - items.length = k2 := by
            omega
          have e3 : ((interval_snapshots es).getLast?.getD items).length - prev.length
              = k1 + k2 := by omega
          rw [hi, hemit, summary_indices_prefix items _ hfinal prev.length
            (items.length - prev.length) (by omega), e1, e2, e3, hk1, summary_indices_append]
        | null => exact absurd hhead (by simp [RunEvent.intervals_are_array])
        | bool b => exact absurd hhead (by simp [RunEvent.intervals_are_array])
        | number v => exact absurd hhead (by simp [RunEvent.intervals_are_array])
        | string v => exact absurd hhead (by simp [RunEvent.intervals_are_array])
        | object m => exact absurd hhead (by simp [RunEvent.intervals_are_array])

end growth

section lifting

theorem State.call_reporter_callback (s : State) (q test : Nat) (c : EngineCall) :
    ((s.call q c).deref test).bind iperf_test.reporter_callback
      = (s.deref test).bind iperf_test.reporter_callback :=
  State.update_reporter_callback s q test _ (by intro t; rfl)

theorem set_protocol_reporter_callback (W : Env) (q test : Nat) (p : Protocol) (s : State) :
    ((set_protocol W q p s).2.deref test).bind iperf_test.reporter_callback
      = (s.deref test).bind iperf_test.reporter_callback :=
  State.call_reporter_callback s q test _

/-- The transport step leaves the relay as the configuration step set it up. -/
theorem apply_transport_relay (W : Env) (use_udp : Bool) (bandwidth : Int) (test : Nat)
    (result : Iperf3Result) (s s2 : State)
    (h : apply_transport W use_udp bandwidth test result s = Sum.inr s2) :
    s2.g_progress_callback = s.g_progress_callback
      ∧ s2.g_last_reported_interval = s.g_last_reported_interval
      ∧ (s2.deref test).bind iperf_test.reporter_callback
          = (s.deref test).bind iperf_test.reporter_callback := by
  unfold apply_transport at h
  cases use_udp with
  | true =>
    simp only [if_true] at h
    split at h
    · cases h
    · injection h with h
      subst h
      by_cases hb : bandwidth > 0
      · simp only [hb, if_true, State.call_reporter_callback, set_protocol_reporter_callback]
        exact ⟨rfl, rfl, trivial⟩
      · simp only [hb, if_false, State.call_reporter_callback, set_protocol_reporter_callback]
        exact ⟨rfl, rfl, trivial⟩
  | false =>
    simp only [Bool.false_eq_true, if_false] at h
    split at h
    · cases h
    · injection h with h
      subst h
      by_cases hb : bandwidth > 0
      · simp only [hb, if_true, State.call_reporter_callback, set_protocol_reporter_callback]
        exact ⟨rfl, rfl, trivial⟩
      · simp only [hb, if_false, set_protocol_reporter_callback]
        exact ⟨rfl, rfl, trivial⟩

/-- A run that reaches the registration with a progress callback has the relay in
place and the counter at 0. -/
theorem client_setup_relay_ready (W : Env) (host : String) (port duration parallel : Int)
    (reverse use_udp : Bool) (bandwidth : Int) (callback : Nat) (ctx : Option Nat) (s : State)
    (test : Nat) (s1 : State)
    (h : client_setup W host port duration parallel reverse use_udp bandwidth (some callback)
      ctx s = Sum.inr (test, s1)) :
    RelayReady s1 test callback 0 := by
  obtain ⟨htest, htransport⟩ := client_setup_inr W host port duration parallel reverse use_udp
    bandwidth (some callback) ctx s test s1 h
  subst htest
  obtain ⟨h1, h2, h3⟩ := apply_transport_relay W use_udp bandwidth _ _ _ s1 htransport
  have hconf := configure_client_test_deref W host port duration parallel reverse
    s.heap.length
    { s with
      g_progress_callback := some callback, g_progress_context := ctx,
      i_errno := (W.iperf_new_test s.i_errno).2,
      heap := s.heap ++ [some iperf_test.fresh] }
    iperf_test.fresh (State.deref_alloc _ _)
  refine ⟨?_, ?_, ?_⟩
  · rw [h1]; rfl
  · rw [h3, hconf]; rfl
  · rw [h2]; rfl

theorem summary_indices_pairwise (items : List cJSON) (a k : Nat) :
    List.Pairwise (fun x y => x < y) (summary_indices items a k) := by
  unfold summary_indices
  rw [List.pairwise_map]
  apply List.Pairwise.filter
  apply List.Pairwise.imp _ (List.pairwise_lt_range' a k)
  intro x y hxy
  omega

theorem summary_indices_bounds (items : List cJSON) (k : Nat) (i : Int)
    (h : i ∈ summary_indices items 0 k) : 1 ≤ i ∧ i ≤ (k : Int) := by
  unfold summary_indices at h
  rw [List.mem_map] at h
  obtain ⟨idx, hidx, rfl⟩ := h
  rw [List.mem_filter, List.mem_range'_1] at hidx
  omega

theorem chain_of_chain' (l : List (List cJSON)) (h : List.Chain' (fun x y => x <+: y) l) :
    List.Chain (fun x y => x <+: y) [] l := by
  cases l with
  | nil => exact List.Chain.nil
  | cons a t => exact List.Chain.cons (List.nil_prefix) h

end lifting

section envelope

/-- Past the registration, the function is the blocking run, the classification and
the cleanup, in this order. -/
theorem run_client_of_setup (W : Env) (host : String) (port duration parallel : Int)
    (reverse use_udp : Bool) (bandwidth : Int) (cb ctx : Option Nat) (s : State)
    (test : Nat) (s1 : State)
    (hsetup : client_setup W host port duration parallel reverse use_udp bandwidth cb ctx s
      = Sum.inr (test, s1)) :
    iperf3_run_client_test W host port duration parallel reverse use_udp bandwidth cb ctx s
      = ((classify W test (run_registered W test s1).1 Iperf3Result.zeroed
            (run_registered W test s1).2.1).1,
          cleanup_client W test (classify W test (run_registered W test s1).1
            Iperf3Result.zeroed (run_registered W test s1).2.1).2,
          (run_registered W test s1).2.2) := by
  unfold iperf3_run_client_test
  rw [hsetup]

theorem classify_cancelled (W : Env) (test : Nat) (o : RunOutcome) (s : State)
    (h : o.was_cancelled ≠ 0) :
    (classify W test o Iperf3Result.zeroed s).1
      = { Iperf3Result.zeroed with
          success := false,
          errorMessage := some "Test cancelled by user",
          errorCode := W.IECLIENTTERM } := by
  unfold classify
  simp [h]

theorem classify_success (W : Env) (test : Nat) (o : RunOutcome) (s : State) (json : String)
    (hc : o.was_cancelled = 0) (hr : o.result_code = 0) (he : o.final_errno = 0)
    (hj : W.iperf_get_test_json_output_string (s.callsOf test) = some json) :
    (classify W test o Iperf3Result.zeroed s).1
      = { Iperf3Result.zeroed with success := true, jsonOutput := some json } := by
  unfold classify
  simp [hc, hr, he, hj, Iperf3Result.zeroed]

theorem classify_no_output (W : Env) (test : Nat) (o : RunOutcome) (s : State)
    (hc : o.was_cancelled = 0) (hr : o.result_code = 0) (he : o.final_errno = 0)
    (hj : W.iperf_get_test_json_output_string (s.callsOf test) = none) :
    (classify W test o Iperf3Result.zeroed s).1
      = { Iperf3Result.zeroed with
          success := false,
          errorMessage := some "No JSON output available",
          errorCode := -1 } := by
  unfold classify
  simp [hc, hr, he, hj, Iperf3Result.zeroed]

theorem classify_engine_error (W : Env) (test : Nat) (o : RunOutcome) (s : State)
    (hc : o.was_cancelled = 0) (hr : o.result_code = 0) (he : o.final_errno ≠ 0) :
    (classify W test o Iperf3Result.zeroed s).1
      = { Iperf3Result.zeroed with
          success := false,
          errorMessage := some ((W.iperf_strerror o.final_errno).getD "Test encountered an error"),
          errorCode := o.final_errno } := by
  unfold classify
  simp [hc, hr, he, Iperf3Result.zeroed]

theorem classify_failed (W : Env) (test : Nat) (o : RunOutcome) (s : State)
    (hc : o.was_cancelled = 0) (hr : o.result_code ≠ 0) :
    (classify W test o Iperf3Result.zeroed s).1
      = { Iperf3Result.zeroed with
          success := false,
          errorMessage := some ((W.iperf_strerror o.final_errno).getD "iperf3 test failed"),
          errorCode := o.result_code } := by
  unfold classify
  simp [hc, hr, Iperf3Result.zeroed]

end envelope

section early

/-- The state in which the transport step starts has the fresh instance configured. -/
theorem configured_calls (W : Env) (host : String) (port duration parallel : Int)
    (reverse : Bool) (cb ctx : Option Nat) (s : State) :
    (configure_client_test W host port duration parallel reverse s.heap.length
        { s with
          g_progress_callback := cb, g_progress_context := ctx,
          i_errno := (W.iperf_new_test s.i_errno).2,
          heap := s.heap ++ [some iperf_test.fresh] }).callsOf s.heap.length
      = client_config_calls host port duration parallel reverse := by
  have hconf := configure_client_test_deref W host port duration parallel reverse
    s.heap.length
    { s with
      g_progress_callback := cb, g_progress_context := ctx,
      i_errno := (W.iperf_new_test s.i_errno).2,
      heap := s.heap ++ [some iperf_test.fresh] }
    iperf_test.fresh (State.deref_alloc _ _)
  rw [State.callsOf_of_deref _ _ _ hconf]
  rfl

theorem configured_i_errno (W : Env) (host : String) (port duration parallel : Int)
    (reverse : Bool) (test : Nat) (s : State) :
    (configure_client_test W host port duration parallel reverse test s).i_errno = s.i_errno :=
  rfl

/-- When `set_protocol` fails, the function returns from the setup: the envelope of
the failure, and the state in which the instance has been released. -/
theorem client_setup_transport_failure (W : Env) (host : String)
    (port duration parallel : Int) (reverse use_udp : Bool) (bandwidth : Int)
    (cb ctx : Option Nat) (s : State) (r e : Int)
    (hnew : (W.iperf_new_test s.i_errno).1 = true)
    (hproto : W.set_protocol (client_config_calls host port duration parallel reverse)
      (selected_protocol use_udp) (W.iperf_new_test s.i_errno).2 = (r, e))
    (hr : r ≠ 0) :
    client_setup W host port duration parallel reverse use_udp bandwidth cb ctx s
      = Sum.inl
          ({ Iperf3Result.zeroed with
              success := false,
              errorMessage := some ((W.iperf_strerror e).getD (protocol_failure_text use_udp)),
              errorCode := r },
            iperf_free_test
              { State.call
                  (configure_client_test W host port duration parallel reverse s.heap.length
                    { s with
                      g_progress_callback := cb, g_progress_context := ctx,
                      i_errno := (W.iperf_new_test s.i_errno).2,
                      heap := s.heap ++ [some iperf_test.fresh] })
                  s.heap.length (EngineCall.set_protocol (selected_protocol use_udp)) with
                i_errno := e }
              s.heap.length) := by
  have hcalls := configured_calls W host port duration parallel reverse cb ctx s
  unfold client_setup
  simp only [hnew, Bool.true_eq_false, if_false]
  unfold apply_transport set_protocol
  cases use_udp with
  | true =>
    simp only [selected_protocol, if_true] at hproto
    simp only [if_true, hcalls, configured_i_errno, hproto, ne_eq, hr, not_false_eq_true,
      selected_protocol, protocol_failure_text]
  | false =>
    simp only [selected_protocol, Bool.false_eq_true, if_false] at hproto
    simp only [Bool.false_eq_true, if_false, if_true, hcalls, configured_i_errno, hproto,
      ne_eq, hr, not_false_eq_true, selected_protocol, protocol_failure_text]

end early

section release

theorem iperf_free_test_deref (s : State) (test : Nat) :
    (iperf_free_test s test).deref test = none := by
  unfold iperf_free_test State.deref
  simp only [List.getElem?_set]
  by_cases h : test < s.heap.length
  · simp [h]
  · simp [h]

end release

section registration

theorem apply_transport_inl_registration (W : Env) (use_udp : Bool) (bandwidth : Int)
    (test : Nat) (result : Iperf3Result) (s : State) (early : Iperf3Result × State)
    (h : apply_transport W use_udp bandwidth test result s = Sum.inl early) :
    early.2.g_active_client_test = s.g_active_client_test
      ∧ early.2.g_cancel_client_requested = s.g_cancel_client_requested := by
  unfold apply_transport at h
  cases use_udp with
  | true =>
    simp only [if_true] at h
    split at h
    · injection h with h
      subst h
      exact ⟨rfl, rfl⟩
    · cases h
  | false =>
    simp only [Bool.false_eq_true, if_false] at h
    split at h
    · injection h with h
      subst h
      exact ⟨rfl, rfl⟩
    · cases h

theorem configure_registration (W : Env) (host : String) (port duration parallel : Int)
    (reverse : Bool) (test : Nat) (s : State) :
    ((configure_client_test W host port duration parallel reverse test s).g_active_client_test
        = s.g_active_client_test)
      ∧ ((configure_client_test W host port duration parallel reverse test
          s).g_cancel_client_requested = s.g_cancel_client_requested) :=
  ⟨rfl, rfl⟩

/-- An early return leaves the registration and the cancellation flag untouched. -/
theorem client_setup_inl_registration (W : Env) (host : String)
    (port duration parallel : Int) (reverse use_udp : Bool) (bandwidth : Int)
    (cb ctx : Option Nat) (s : State) (early : Iperf3Result × State)
    (h : client_setup W host port duration parallel reverse use_udp bandwidth cb ctx s
      = Sum.inl early) :
    early.2.g_active_client_test = s.g_active_client_test
      ∧ early.2.g_cancel_client_requested = s.g_cancel_client_requested := by
  unfold client_setup at h
  dsimp only at h
  split at h
  · injection h with h
    subst h
    exact ⟨rfl, rfl⟩
  · split at h
    · next e2 heq =>
      injection h with h
      subst h
      have h2 := apply_transport_inl_registration W use_udp bandwidth _ _ _ e2 heq
      rw [(configure_registration W host port duration parallel reverse _ _).1,
        (configure_registration W host port duration parallel reverse _ _).2] at h2
      exact h2
    · cases h

theorem classify_registration (W : Env) (test : Nat) (o : RunOutcome) (result : Iperf3Result)
    (s : State) :
    (classify W test o result s).2.g_active_client_test = s.g_active_client_test
      ∧ (classify W test o result s).2.g_cancel_client_requested
          = s.g_cancel_client_requested := by
  unfold classify
  dsimp only
  split
  · exact ⟨rfl, rfl⟩
  · split
    · split
      · exact ⟨rfl, rfl⟩
      · exact ⟨rfl, rfl⟩
    · split
      · exact ⟨rfl, rfl⟩
      · exact ⟨rfl, rfl⟩

/-- A run that reaches the engine returns with no registration and a clear flag. -/
theorem run_client_registration_of_setup (W : Env) (host : String)
    (port duration parallel : Int) (reverse use_udp : Bool) (bandwidth : Int)
    (cb ctx : Option Nat) (s : State) (test : Nat) (s1 : State)
    (hsetup : client_setup W host port duration parallel reverse use_udp bandwidth cb ctx s
      = Sum.inr (test, s1)) :
    (iperf3_run_client_test W host port duration parallel reverse use_udp bandwidth cb ctx
        s).2.1.g_active_client_test = none
      ∧ (iperf3_run_client_test W host port duration parallel reverse use_udp bandwidth cb ctx
        s).2.1.g_cancel_client_requested = 0 := by
  rw [run_client_of_setup W host port duration parallel reverse use_udp bandwidth cb ctx s
    test s1 hsetup]
  dsimp only
  have hc := classify_registration W test (run_registered W test s1).1 Iperf3Result.zeroed
    (run_registered W test s1).2.1
  constructor
  · show (classify W test (run_registered W test s1).1 Iperf3Result.zeroed
      (run_registered W test s1).2.1).2.g_active_client_test = none
    rw [hc.1]
    rfl
  · show (classify W test (run_registered W test s1).1 Iperf3Result.zeroed
      (run_registered W test s1).2.1).2.g_cancel_client_requested = 0
    rw [hc.2]
    rfl

end registration

section notifications

theorem relay_interval_is_progress (W : Env) (cb : Nat) (ctx : Option Nat) (ji : cJSON) (idx : Int)
    (e : Effect) (h : e ∈ relay_interval W cb ctx ji idx) :
    e.is_progress = true ∧ e.interval_index = some (idx + 1) := by
  unfold relay_interval at h
  dsimp only at h
  split at h
  · cases h
  · rw [List.mem_singleton] at h
    subst h
    exact ⟨rfl, rfl⟩

theorem relay_loop_is_progress (W : Env) (cb : Nat) (ctx : Option Nat) (ji : cJSON)
    (first interval_count : Int) (e : Effect)
    (h : e ∈ relay_loop W cb ctx ji first interval_count) : e.is_progress = true := by
  unfold relay_loop at h
  rw [List.mem_flatten] at h
  obtain ⟨l, hl, he⟩ := h
  rw [List.mem_map] at hl
  obtain ⟨k, _, rfl⟩ := hl
  exact (relay_interval_is_progress W cb ctx ji _ e he).1

end notifications

section values

theorem truncate_toward_zero_intCast (z : Int) : truncate_toward_zero (z : Rat) = z := by
  unfold truncate_toward_zero
  split
  · simp [Rat.floor]
  · simp [Rat.ceil]

theorem double_to_long_of_range (W : Env) (x : Rat)
    (hmin : W.LONG_MIN ≤ truncate_toward_zero x) (hmax : truncate_toward_zero x ≤ W.LONG_MAX) :
    double_to_long W x = some (truncate_toward_zero x) := by
  unfold double_to_long
  simp only [hmin, hmax, and_self, if_true]

theorem double_to_int_of_range (W : Env) (x : Rat)
    (hmin : W.INT_MIN ≤ truncate_toward_zero x) (hmax : truncate_toward_zero x ≤ W.INT_MAX) :
    double_to_int W x = some (truncate_toward_zero x) := by
  unfold double_to_int
  simp only [hmin, hmax, and_self, if_true]

theorem double_to_long_defined (W : Env) (x : Rat) (v : Int)
    (h : double_to_long W x = some v) : W.LONG_MIN ≤ v ∧ v ≤ W.LONG_MAX := by
  unfold double_to_long at h
  split at h
  · next hr =>
    injection h with h
    subst h
    exact hr
  · cases h

theorem double_to_int_defined (W : Env) (x : Rat) (v : Int)
    (h : double_to_int W x = some v) : W.INT_MIN ≤ v ∧ v ≤ W.INT_MAX := by
  unfold double_to_int at h
  split at h
  · next hr =>
    injection h with h
    subst h
    exact hr
  · cases h

theorem get_json_number_eq_summary_value (sum : cJSON) (key : String) :
    get_json_number (some sum) (some key) 0 = summary_value sum key := by
  unfold get_json_number summary_value
  dsimp only
  cases cJSON_GetObjectItemCaseSensitive sum key with
  | none => rfl
  | some item => cases item <;> rfl

/-- The body of the loop at a position whose record has a summary object. -/
theorem relay_interval_of_summary (W : Env) (cb : Nat) (ctx : Option Nat) (items : List cJSON)
    (idx : Nat) (sum : cJSON) (hsum : get_interval_sum items[idx]? = some sum) :
    relay_interval W cb ctx (cJSON.array items) (idx : Int)
      = [Effect.progress cb ctx ((idx : Int) + 1)
          (double_to_long W (summary_value sum "bytes"))
          (summary_value sum "bits_per_second") (summary_value sum "jitter_ms")
          (double_to_int W (summary_value sum "lost_packets")) 0] := by
  unfold relay_interval cJSON_GetArrayItem
  have hneg : ¬ ((idx : Int) < 0) := by omega
  simp only [hneg, if_false, Int.toNat_ofNat, hsum, get_json_number_eq_summary_value]

theorem filter_relay_interval (W : Env) (cb : Nat) (ctx : Option Nat) (ji : cJSON) (n k j : Nat) :
    (relay_interval W cb ctx ji ((n : Int) + (k : Int))).filter
        (fun e => decide (e.interval_index = some ((n : Int) + (j : Int) + 1)))
      = if k = j then relay_interval W cb ctx ji ((n : Int) + (k : Int)) else [] := by
  by_cases hkj : k = j
  · subst hkj
    simp only [if_true]
    rw [List.filter_eq_self]
    intro e he
    simp [(relay_interval_is_progress W cb ctx ji _ e he).2]
  · simp only [hkj, if_false]
    rw [List.filter_eq_nil_iff]
    intro e he
    rw [(relay_interval_is_progress W cb ctx ji _ e he).2]
    simp only [decide_eq_true_eq, Option.some.injEq]
    omega

theorem filter_relay_positions (W : Env) (cb : Nat) (ctx : Option Nat) (ji : cJSON) (n j : Nat)
    (l : List Nat) :
    ((l.map (fun (k : Nat) => relay_interval W cb ctx ji ((n : Int) + (k : Int)))).flatten).filter
        (fun e => decide (e.interval_index = some ((n : Int) + (j : Int) + 1)))
      = (l.map (fun (k : Nat) =>
          if k = j then relay_interval W cb ctx ji ((n : Int) + (k : Int)) else [])).flatten := by
  induction l with
  | nil => rfl
  | cons k l ih =>
    simp only [List.map_cons, List.flatten_cons, List.filter_append, ih, filter_relay_interval]

theorem select_position (j : Nat) (f : Nat → List Effect) (l : List Nat) :
    (j ∉ l → (l.map (fun (k : Nat) => if k = j then f k else [])).flatten = [])
      ∧ (j ∈ l → l.Nodup →
          (l.map (fun (k : Nat) => if k = j then f k else [])).flatten = f j) := by
  induction l with
  | nil => exact ⟨fun _ => rfl, fun h => by cases h⟩
  | cons k l ih =>
    constructor
    · intro hnot
      have hk : k ≠ j := fun h => hnot (h ▸ List.mem_cons_self _ _)
      have hl : j ∉ l := fun h => hnot (List.mem_cons_of_mem _ h)
      simp only [List.map_cons, List.flatten_cons, hk, if_false, List.nil_append, ih.1 hl]
    · intro hmem hnodup
      rw [List.nodup_cons] at hnodup
      by_cases hk : k = j
      · subst hk
        simp only [List.map_cons, List.flatten_cons, if_true, ih.1 hnodup.1, List.append_nil]
      · have hl : j ∈ l := by
          cases hmem with
          | head => exact absurd rfl hk
          | tail _ h => exact h
        simp only [List.map_cons, List.flatten_cons, hk, if_false, List.nil_append,
          ih.2 hl hnodup.2]

/-- Among the effects of the loop, those with the index of a position in range are
exactly the effects of the loop body at that position. -/
theorem filter_relay_loop (W : Env) (cb : Nat) (ctx : Option Nat) (ji : cJSON) (n m idx : Nat)
    (hn : n ≤ idx) (hm : idx < m) :
    (relay_loop W cb ctx ji (n : Int) (m : Int)).filter
        (fun e => decide (e.interval_index = some ((idx : Int) + 1)))
      = relay_interval W cb ctx ji (idx : Int) := by
  unfold relay_loop
  have hk : ((m : Int) - (n : Int)).toNat = m - n := by omega
  have hidx : (idx : Int) = (n : Int) + ((idx - n : Nat) : Int) := by omega
  rw [hk, hidx, filter_relay_positions]
  exact (select_position (idx - n)
    (fun (k : Nat) => relay_interval W cb ctx ji ((n : Int) + (k : Int)))
    (List.range (m - n))).2 (List.mem_range.mpr (by omega)) (List.nodup_range _)

theorem filter_call_original_reporter (test : Option Nat) (s : State) (i : Int) :
    (call_original_reporter test s).filter (fun e => decide (e.interval_index = some i))
      = [] := by
  unfold call_original_reporter
  split <;> rfl

end values

section monotone

theorem relay_interval_indices_sublist (W : Env) (cb : Nat) (ctx : Option Nat) (ji : cJSON) (idx : Int) :
    List.Sublist (progress_indices (relay_interval W cb ctx ji idx)) [idx + 1] := by
  unfold relay_interval
  dsimp only
  split
  · exact List.nil_sublist _
  · exact List.Sublist.refl _

theorem relay_positions_sublist (W : Env) (cb : Nat) (ctx : Option Nat) (ji : cJSON) (first : Int)
    (l : List Nat) :
    List.Sublist
      (progress_indices ((l.map
        (fun (k : Nat) => relay_interval W cb ctx ji (first + (k : Int)))).flatten))
      (l.map (fun (k : Nat) => first + (k : Int) + 1)) := by
  induction l with
  | nil => exact List.Sublist.refl _
  | cons k l ih =>
    simp only [List.map_cons, List.flatten_cons, progress_indices_append]
    exact List.Sublist.append (relay_interval_indices_sublist W cb ctx ji _) ih

theorem positions_pairwise (first : Int) (n : Nat) :
    List.Pairwise (fun x y => x < y)
      ((List.range n).map (fun (k : Nat) => first + (k : Int) + 1)) := by
  rw [List.pairwise_map]
  apply List.Pairwise.imp _ (List.pairwise_lt_range n)
  intro a b hab
  omega

/-- One pass of the loop: the indices are ascending and lie above the counter and at
most at the interval count. -/
theorem relay_loop_indices_bounds (W : Env) (cb : Nat) (ctx : Option Nat) (ji : cJSON)
    (first interval_count : Int) :
    List.Pairwise (fun x y => x < y)
        (progress_indices (relay_loop W cb ctx ji first interval_count))
      ∧ ∀ i ∈ progress_indices (relay_loop W cb ctx ji first interval_count),
          first < i ∧ i ≤ interval_count := by
  unfold relay_loop
  have hsub := relay_positions_sublist W cb ctx ji first
    (List.range (interval_count - first).toNat)
  constructor
  · exact List.Pairwise.sublist hsub (positions_pairwise first _)
  · intro i hi
    have hmem := hsub.subset hi
    rw [List.mem_map] at hmem
    obtain ⟨k, hk, rfl⟩ := hmem
    rw [List.mem_range] at hk
    omega

/-- One invocation of the relay: the counter does not decrease, and the indices
emitted are ascending, above the old counter and at most the new one. -/
theorem bridge_reporter_callback_step (W : Env) (test : Option Nat) (s : State) :
    s.g_last_reported_interval ≤ (bridge_reporter_callback W test s).1.g_last_reported_interval
      ∧ List.Pairwise (fun x y => x < y)
          (progress_indices (bridge_reporter_callback W test s).2)
      ∧ ∀ i ∈ progress_indices (bridge_reporter_callback W test s).2,
          s.g_last_reported_interval < i
            ∧ i ≤ (bridge_reporter_callback W test s).1.g_last_reported_interval := by
  have hquiet : s.g_last_reported_interval ≤ s.g_last_reported_interval
      ∧ List.Pairwise (fun x y => x < y) (progress_indices (call_original_reporter test s))
      ∧ ∀ i ∈ progress_indices (call_original_reporter test s),
          s.g_last_reported_interval < i ∧ i ≤ s.g_last_reported_interval := by
    rw [progress_indices_call_original_reporter]
    exact ⟨le_refl _, List.Pairwise.nil, fun i hi => by cases hi⟩
  unfold bridge_reporter_callback
  dsimp only
  split
  · split
    · exact hquiet
    · split
      · exact hquiet
      · next hgt =>
        rw [progress_indices_append, progress_indices_call_original_reporter, List.nil_append]
        obtain ⟨hp, hb⟩ := relay_loop_indices_bounds W _ s.g_progress_context _
          s.g_last_reported_interval _
        exact ⟨by dsimp only; omega, hp, hb⟩
  · exact hquiet

/-- An invocation that sees an interval count not above the counter changes nothing
and emits nothing. -/
theorem bridge_reporter_callback_quiet (W : Env) (p : Nat) (s : State) (ji : cJSON)
    (hlist : (s.deref p).bind iperf_test.json_intervals = some ji)
    (hle : cJSON_GetArraySize ji ≤ s.g_last_reported_interval) :
    (bridge_reporter_callback W (some p) s).1 = s
      ∧ progress_indices (bridge_reporter_callback W (some p) s).2 = [] := by
  unfold bridge_reporter_callback
  dsimp only
  split
  · next callback q hcb heq =>
    injection heq with heq
    subst heq
    simp only [hlist, hle, if_true]
    exact ⟨trivial, progress_indices_call_original_reporter _ _⟩
  · exact ⟨rfl, progress_indices_call_original_reporter _ _⟩

theorem run_event_step (W : Env) (test : Nat) (s : State) (e : RunEvent) :
    s.g_last_reported_interval ≤ (run_event W test s e).1.g_last_reported_interval
      ∧ List.Pairwise (fun x y => x < y) (progress_indices (run_event W test s e).2)
      ∧ ∀ i ∈ progress_indices (run_event W test s e).2,
          s.g_last_reported_interval < i
            ∧ i ≤ (run_event W test s e).1.g_last_reported_interval := by
  cases e with
  | cancel =>
    unfold run_event
    dsimp only
    rw [(cancel_relay_fields W s).2]
    exact ⟨le_refl _, List.Pairwise.nil, fun i hi => by cases hi⟩
  | reporter ji =>
    unfold run_event
    dsimp only
    split
    · exact bridge_reporter_callback_step W (some test)
        (s.update test (fun t => { t with json_intervals := ji }))
    · exact ⟨le_refl _, List.Pairwise.nil, fun i hi => by cases hi⟩
    · exact ⟨le_refl _, List.Pairwise.nil, fun i hi => by cases hi⟩

/-- The window as a whole, for any events: the counter does not decrease and the
indices emitted are strictly increasing and above the counter's start. -/
theorem run_events_increasing (W : Env) (test : Nat) (es : List RunEvent) :
    ∀ s : State,
      s.g_last_reported_interval ≤ (run_events W test es s).1.g_last_reported_interval
        ∧ List.Pairwise (fun x y => x < y) (progress_indices (run_events W test es s).2)
        ∧ ∀ i ∈ progress_indices (run_events W test es s).2, s.g_last_reported_interval < i := by
  induction es with
  | nil =>
    intro s
    exact ⟨le_refl _, List.Pairwise.nil, fun i hi => by cases hi⟩
  | cons e es ih =>
    intro s
    obtain ⟨h1, h2, h3⟩ := run_event_step W test s e
    obtain ⟨k1, k2, k3⟩ := ih (run_event W test s e).1
    unfold run_events
    dsimp only
    rw [progress_indices_append]
    refine ⟨le_trans h1 k1, ?_, ?_⟩
    · rw [List.pairwise_append]
      refine ⟨h2, k2, ?_⟩
      intro a ha b hb
      exact lt_of_le_of_lt (h3 a ha).2 (k3 b hb)
    · intro i hi
      rw [List.mem_append] at hi
      cases hi with
      | inl hl => exact (h3 i hl).1
      | inr hr => exact lt_of_le_of_lt h1 (k3 i hr)

/-- A run that reaches the registration does so with the counter at 0. -/
theorem client_setup_counter_zero (W : Env) (host : String) (port duration parallel : Int)
    (reverse use_udp : Bool) (bandwidth : Int) (cb ctx : Option Nat) (s : State)
    (test : Nat) (s1 : State)
    (h : client_setup W host port duration parallel reverse use_udp bandwidth cb ctx s
      = Sum.inr (test, s1)) :
    s1.g_last_reported_interval = 0 := by
  obtain ⟨_, htransport⟩ := client_setup_inr W host port duration parallel reverse use_udp
    bandwidth cb ctx s test s1 h
  rw [(apply_transport_relay W use_udp bandwidth _ _ _ s1 htransport).2.1]
  rfl

end monotone

section server

theorem start_server_registration (W : Env) (port : Int) (use_udp : Bool) (s : State) :
    (iperf3_start_server_test W port use_udp s).2.g_active_client_test
        = s.g_active_client_test
      ∧ (iperf3_start_server_test W port use_udp s).2.g_cancel_client_requested
        = s.g_cancel_client_requested := by
  unfold iperf3_start_server_test
  dsimp only
  split
  · exact ⟨rfl, rfl⟩
  · split
    · exact ⟨rfl, rfl⟩
    · cases use_udp with
      | true =>
        simp only [if_true]
        split
        · exact ⟨rfl, rfl⟩
        · exact ⟨rfl, rfl⟩
      | false =>
        simp only [Bool.false_eq_true, if_false]
        split
        · exact ⟨rfl, rfl⟩
        · exact ⟨rfl, rfl⟩

theorem stop_server_registration (W : Env) (s : State) :
    (iperf3_stop_server_test W s).2.1.g_active_client_test = s.g_active_client_test
      ∧ (iperf3_stop_server_test W s).2.1.g_cancel_client_requested
        = s.g_cancel_client_requested := by
  unfold iperf3_stop_server_test
  split
  · exact ⟨rfl, rfl⟩
  · exact ⟨rfl, rfl⟩

end server

/-! ## The claims -/

/-- C1: when a cancellation request arrives between the registration of the run's
instance and its deregistration, the envelope has success = false and the error code
IECLIENTTERM, whatever the result code, the error indicator and the JSON output of
the run. -/
theorem cancel_during_run_yields_cancelled_envelope (W : Env) (host : String)
    (port duration parallel : Int) (reverse use_udp : Bool) (bandwidth : Int)
    (cb ctx : Option Nat) (s : State) (test : Nat) (s1 : State)
    (hsetup : client_setup W host port duration parallel reverse use_udp bandwidth cb ctx s
      = Sum.inr (test, s1))
    (hcancel : RunEvent.cancel ∈ (W.iperf_run_client (s1.callsOf test)).events) :
    (iperf3_run_client_test W host port duration parallel reverse use_udp bandwidth cb ctx
        s).1.success = false
      ∧ (iperf3_run_client_test W host port duration parallel reverse use_udp bandwidth cb ctx
        s).1.errorCode = W.IECLIENTTERM := by
  have hflag := run_registered_cancelled W test s1 hcancel
  rw [run_client_of_setup W host port duration parallel reverse use_udp bandwidth cb ctx s
    test s1 hsetup]
  dsimp only
  rw [classify_cancelled W test _ _ (by rw [hflag]; decide)]
  exact ⟨rfl, rfl⟩

/-- Witness of C1: a TCP run that ends with result code 0, no error and JSON output,
cancelled while it was running. -/
theorem cancel_during_run_yields_cancelled_envelope_witness :
    (iperf3_run_client_test
        (Env.sample true 0 { events := [RunEvent.cancel], result_code := 0, i_errno := 0 }
          (some "\x7b\x7d"))
        "192.0.2.1" 5201 10 1 false false 0 none none (State.initial 0)).1.success = false
      ∧ (iperf3_run_client_test
        (Env.sample true 0 { events := [RunEvent.cancel], result_code := 0, i_errno := 0 }
          (some "\x7b\x7d"))
        "192.0.2.1" 5201 10 1 false false 0 none none (State.initial 0)).1.errorCode = 119 :=
  cancel_during_run_yields_cancelled_envelope
    (Env.sample true 0 { events := [RunEvent.cancel], result_code := 0, i_errno := 0 }
      (some "\x7b\x7d"))
    "192.0.2.1" 5201 10 1 false false 0 none none (State.initial 0) 0 _ rfl
    (List.mem_cons_self _ _)

/-- C2: with no client registered, iperf3_request_client_cancel returns the state it
was given (no registration, the cancellation flag and every engine instance as they
were), a client run started afterwards is the run that would have happened without
the request, and such a run reads the cancellation flag as 0 unless a request arrives
inside its own registered window. -/
theorem cancel_without_registration_changes_nothing (W : Env) (s : State)
    (hidle : s.g_active_client_test = none) :
    iperf3_request_client_cancel W s = s
      ∧ (iperf3_request_client_cancel W s).g_active_client_test = none
      ∧ (iperf3_request_client_cancel W s).g_cancel_client_requested
          = s.g_cancel_client_requested
      ∧ (iperf3_request_client_cancel W s).heap = s.heap
      ∧ (∀ (host : String) (port duration parallel : Int) (reverse use_udp : Bool)
          (bandwidth : Int) (cb ctx : Option Nat),
          iperf3_run_client_test W host port duration parallel reverse use_udp bandwidth cb ctx
              (iperf3_request_client_cancel W s)
            = iperf3_run_client_test W host port duration parallel reverse use_udp bandwidth
              cb ctx s)
      ∧ (∀ (host : String) (port duration parallel : Int) (reverse use_udp : Bool)
          (bandwidth : Int) (cb ctx : Option Nat) (test : Nat) (s1 : State),
          client_setup W host port duration parallel reverse use_udp bandwidth cb ctx
              (iperf3_request_client_cancel W s) = Sum.inr (test, s1) →
          RunEvent.cancel ∉ (W.iperf_run_client (s1.callsOf test)).events →
          (run_registered W test s1).1.was_cancelled = 0) := by
  have hsame : iperf3_request_client_cancel W s = s := by
    unfold iperf3_request_client_cancel
    rw [hidle]
  refine ⟨hsame, ?_, ?_, ?_, ?_, ?_⟩
  · rw [hsame]; exact hidle
  · rw [hsame]
  · rw [hsame]
  · intro host port duration parallel reverse use_udp bandwidth cb ctx
    rw [hsame]
  · intro host port duration parallel reverse use_udp bandwidth cb ctx test s1 _ hnone
    exact run_registered_not_cancelled W test s1 hnone

/-- Witness of C2: a cancellation request in the initial state, where no client is
registered. -/
theorem cancel_without_registration_changes_nothing_witness :
    iperf3_request_client_cancel
        (Env.sample true 0 { events := [], result_code := 0, i_errno := 0 } (some "\x7b\x7d"))
        (State.initial 0) = State.initial 0 :=
  (cancel_without_registration_changes_nothing
    (Env.sample true 0 { events := [], result_code := 0, i_errno := 0 } (some "\x7b\x7d"))
    (State.initial 0) rfl).1

/-- C3: a run that was not cancelled, ended with result code 0 and no error indicator,
and for which the engine has a JSON result string, returns success = true, that very
string as jsonOutput, no error message and error code 0. -/
theorem successful_run_returns_json_copy (W : Env) (host : String)
    (port duration parallel : Int) (reverse use_udp : Bool) (bandwidth : Int)
    (cb ctx : Option Nat) (s : State) (test : Nat) (s1 : State) (json : String)
    (hsetup : client_setup W host port duration parallel reverse use_udp bandwidth cb ctx s
      = Sum.inr (test, s1))
    (hnot : RunEvent.cancel ∉ (W.iperf_run_client (s1.callsOf test)).events)
    (hcode : (W.iperf_run_client (s1.callsOf test)).result_code = 0)
    (herrno : (W.iperf_run_client (s1.callsOf test)).i_errno = 0)
    (hjson : W.iperf_get_test_json_output_string ((run_registered W test s1).2.1.callsOf test)
      = some json) :
    (iperf3_run_client_test W host port duration parallel reverse use_udp bandwidth cb ctx
        s).1.success = true
      ∧ (iperf3_run_client_test W host port duration parallel reverse use_udp bandwidth cb ctx
        s).1.jsonOutput = some json
      ∧ (iperf3_run_client_test W host port duration parallel reverse use_udp bandwidth cb ctx
        s).1.errorMessage = none
      ∧ (iperf3_run_client_test W host port duration parallel reverse use_udp bandwidth cb ctx
        s).1.errorCode = 0 := by
  rw [run_client_of_setup W host port duration parallel reverse use_udp bandwidth cb ctx s
    test s1 hsetup]
  dsimp only
  rw [classify_success W test _ _ json (run_registered_not_cancelled W test s1 hnot)
    (by rw [run_registered_result_code]; exact hcode)
    (by rw [run_registered_final_errno]; exact herrno) hjson]
  exact ⟨rfl, rfl, rfl, rfl⟩

/-- Witness of C3: a UDP run with one reporter call, a clean end and a JSON result. -/
theorem successful_run_returns_json_copy_witness :
    (iperf3_run_client_test
        (Env.sample true 0
          { events := [RunEvent.reporter (some (cJSON.array [cJSON.object []]))],
            result_code := 0, i_errno := 0 }
          (some "\x7b\x7d"))
        "192.0.2.1" 5201 10 1 false true 0 (some 1) none (State.initial 0)).1.jsonOutput
      = some "\x7b\x7d" :=
  (successful_run_returns_json_copy
    (Env.sample true 0
      { events := [RunEvent.reporter (some (cJSON.array [cJSON.object []]))],
        result_code := 0, i_errno := 0 }
      (some "\x7b\x7d"))
    "192.0.2.1" 5201 10 1 false true 0 (some 1) none (State.initial 0) 0 _ "\x7b\x7d" rfl
    (by simp [Env.sample]) rfl rfl rfl).2.1

/-- C4 (counterexample): in a run whose engine shows the relay an interval list of two
records, the first without a summary object, the progress callback is called for the
interval index 2 only; the indices are not 1, 2, ..., n for any n. -/
theorem relay_skips_record_without_summary :
    progress_indices (iperf3_run_client_test
        (Env.sample true 0
          { events := [RunEvent.reporter (some (cJSON.array
              [cJSON.object [("streams", cJSON.array [])],
               cJSON.object [("sum", cJSON.object [("bytes", cJSON.number 1250000)])]]))],
            result_code := 0, i_errno := 0 }
          (some "\x7b\x7d"))
        "192.0.2.1" 5201 10 1 false false 0 (some 1) none (State.initial 0)).2.2 = [2]
      ∧ ¬ ∃ n : Nat, progress_indices (iperf3_run_client_test
        (Env.sample true 0
          { events := [RunEvent.reporter (some (cJSON.array
              [cJSON.object [("streams", cJSON.array [])],
               cJSON.object [("sum", cJSON.object [("bytes", cJSON.number 1250000)])]]))],
            result_code := 0, i_errno := 0 }
          (some "\x7b\x7d"))
        "192.0.2.1" 5201 10 1 false false 0 (some 1) none (State.initial 0)).2.2
          = (List.range n).map (fun (k : Nat) => (k : Int) + 1) := by
  have hrun : progress_indices (iperf3_run_client_test
        (Env.sample true 0
          { events := [RunEvent.reporter (some (cJSON.array
              [cJSON.object [("streams", cJSON.array [])],
               cJSON.object [("sum", cJSON.object [("bytes", cJSON.number 1250000)])]]))],
            result_code := 0, i_errno := 0 }
          (some "\x7b\x7d"))
        "192.0.2.1" 5201 10 1 false false 0 (some 1) none (State.initial 0)).2.2 = [2] := rfl
  refine ⟨hrun, ?_⟩
  rw [hrun]
  rintro ⟨n, hn⟩
  have hlen := congrArg List.length hn
  simp only [List.length_cons, List.length_nil, List.length_map, List.length_range] at hlen
  subst hlen
  revert hn
  decide

/-- C4 (amended): in a run with a progress callback, in which every interval list the
relay is shown is a JSON array that extends the one before, the interval indices
passed to the progress callback are exactly the indices idx + 1 of the positions idx
of the last list whose record has a summary object, in ascending order and without
repeats; each lies between 1 and the number of interval records. -/
theorem progress_indices_are_the_summarised_intervals (W : Env) (host : String)
    (port duration parallel : Int) (reverse use_udp : Bool) (bandwidth : Int)
    (callback : Nat) (ctx : Option Nat) (s : State) (test : Nat) (s1 : State)
    (hsetup : client_setup W host port duration parallel reverse use_udp bandwidth
      (some callback) ctx s = Sum.inr (test, s1))
    (harray : ∀ e ∈ (W.iperf_run_client (s1.callsOf test)).events,
      RunEvent.intervals_are_array e)
    (hgrow : List.Chain' (fun x y => x <+: y)
      (interval_snapshots (W.iperf_run_client (s1.callsOf test)).events)) :
    progress_indices (iperf3_run_client_test W host port duration parallel reverse use_udp
        bandwidth (some callback) ctx s).2.2
        = summary_indices
            ((interval_snapshots (W.iperf_run_client (s1.callsOf test)).events).getLast?.getD [])
            0
            ((interval_snapshots
              (W.iperf_run_client (s1.callsOf test)).events).getLast?.getD []).length
      ∧ List.Pairwise (fun x y => x < y)
          (progress_indices (iperf3_run_client_test W host port duration parallel reverse
            use_udp bandwidth (some callback) ctx s).2.2)
      ∧ ∀ i ∈ progress_indices (iperf3_run_client_test W host port duration parallel reverse
            use_udp bandwidth (some callback) ctx s).2.2,
          1 ≤ i ∧ i ≤ (((interval_snapshots
            (W.iperf_run_client (s1.callsOf test)).events).getLast?.getD []).length : Int) := by
  have hready := client_setup_relay_ready W host port duration parallel reverse use_udp
    bandwidth callback ctx s test s1 hsetup
  have hstart : RelayReady
      (State.call
        { s1 with
          g_active_client_test := some test, g_cancel_client_requested := 0,
          i_errno := W.IENONE } test EngineCall.iperf_run_client)
      test callback ([] : List cJSON).length := by
    obtain ⟨h1, h2, h3⟩ := hready
    refine ⟨h1, ?_, h3⟩
    rw [State.call_reporter_callback]
    exact h2
  have hwin := run_events_indices W test callback
    (W.iperf_run_client (s1.callsOf test)).events _ [] harray (chain_of_chain' _ hgrow) hstart
  have heff : (iperf3_run_client_test W host port duration parallel reverse use_udp
      bandwidth (some callback) ctx s).2.2
      = (run_events W test (W.iperf_run_client (s1.callsOf test)).events
          (State.call
            { s1 with
              g_active_client_test := some test, g_cancel_client_requested := 0,
              i_errno := W.IENONE } test EngineCall.iperf_run_client)).2 := by
    rw [run_client_of_setup W host port duration parallel reverse use_udp bandwidth
      (some callback) ctx s test s1 hsetup]
    rfl
  have hidx := hwin.2
  rw [List.length_nil, Nat.sub_zero] at hidx
  rw [heff, hidx]
  exact ⟨rfl, summary_indices_pairwise _ _ _, fun i hi => summary_indices_bounds _ _ i hi⟩

/-- Witness of C4 (amended): a run shown one record, then three records of which the
second has no summary object; the callback gets the indices 1 and 3. -/
theorem progress_indices_are_the_summarised_intervals_witness :
    progress_indices (iperf3_run_client_test
        (Env.sample true 0
          { events := [
              RunEvent.reporter (some (cJSON.array
                [cJSON.object [("sum", cJSON.object [("bytes", cJSON.number 5)])]])),
              RunEvent.cancel,
              RunEvent.reporter (some (cJSON.array
                [cJSON.object [("sum", cJSON.object [("bytes", cJSON.number 5)])],
                 cJSON.object [],
                 cJSON.object [("sum_sent", cJSON.object [("bytes", cJSON.number 7)])]]))],
            result_code := 0, i_errno := 0 }
          (some "\x7b\x7d"))
        "192.0.2.1" 5201 10 1 false false 0 (some 1) none (State.initial 0)).2.2
      = [1, 3] :=
  (progress_indices_are_the_summarised_intervals
    (Env.sample true 0
      { events := [
          RunEvent.reporter (some (cJSON.array
            [cJSON.object [("sum", cJSON.object [("bytes", cJSON.number 5)])]])),
          RunEvent.cancel,
          RunEvent.reporter (some (cJSON.array
            [cJSON.object [("sum", cJSON.object [("bytes", cJSON.number 5)])],
             cJSON.object [],
             cJSON.object [("sum_sent", cJSON.object [("bytes", cJSON.number 7)])]]))],
        result_code := 0, i_errno := 0 }
      (some "\x7b\x7d"))
    "192.0.2.1" 5201 10 1 false false 0 1 none (State.initial 0) 0 _ rfl
    (by
      intro e he
      simp only [Env.sample, List.mem_cons, List.mem_singleton, List.not_mem_nil, or_false]
        at he
      rcases he with rfl | rfl | rfl <;> exact trivial)
    (by
      simp only [Env.sample, interval_snapshots, List.chain'_cons, List.chain'_singleton,
        and_true]
      exact ⟨[cJSON.object [],
        cJSON.object [("sum_sent", cJSON.object [("bytes", cJSON.number 7)])]], rfl⟩)).1

/-- C5 (the code at the failing input): when the engine cannot construct an instance,
the envelope has success = false and a message, but its error code is 0. -/
theorem construction_failure_leaves_error_code_zero :
    (iperf3_run_client_test
        (Env.sample false 0 { events := [], result_code := 0, i_errno := 0 } none)
        "192.0.2.1" 5201 10 1 false false 0 none none (State.initial 0)).1.success = false
      ∧ (iperf3_run_client_test
        (Env.sample false 0 { events := [], result_code := 0, i_errno := 0 } none)
        "192.0.2.1" 5201 10 1 false false 0 none none (State.initial 0)).1.errorMessage
          = some "Failed to create iperf3 test"
      ∧ (iperf3_run_client_test
        (Env.sample false 0 { events := [], result_code := 0, i_errno := 0 } none)
        "192.0.2.1" 5201 10 1 false false 0 none none (State.initial 0)).1.errorCode = 0 :=
  ⟨rfl, rfl, rfl⟩

/-- C6: a UDP run with bandwidth 0 and the same run with bandwidth 1000000 return the
same envelope, leave the same state and do the same to the outside; they reach the
registration with the same state, hence with the same calls made on the engine
instance; and the rate given to the engine in a UDP run is the bandwidth when that is
positive and 1000000 otherwise. -/
theorem udp_default_bandwidth_is_one_megabit (W : Env) (host : String)
    (port duration parallel : Int) (reverse : Bool) (cb ctx : Option Nat) (s : State) :
    iperf3_run_client_test W host port duration parallel reverse true 0 cb ctx s
        = iperf3_run_client_test W host port duration parallel reverse true 1000000 cb ctx s
      ∧ client_setup W host port duration parallel reverse true 0 cb ctx s
        = client_setup W host port duration parallel reverse true 1000000 cb ctx s
      ∧ ∀ (bandwidth : Int) (test : Nat) (s1 : State),
          client_setup W host port duration parallel reverse true bandwidth cb ctx s
            = Sum.inr (test, s1) →
          s1.callsOf test
            = [EngineCall.iperf_defaults, EngineCall.iperf_set_test_role 'c',
                EngineCall.iperf_set_test_server_hostname host,
                EngineCall.iperf_set_test_server_port port,
                EngineCall.iperf_set_test_duration duration,
                EngineCall.iperf_set_test_num_streams parallel,
                EngineCall.iperf_set_test_reverse (if reverse then 1 else 0),
                EngineCall.iperf_set_test_json_output 1,
                EngineCall.set_protocol Protocol.Pudp,
                EngineCall.iperf_set_test_blksize 0,
                EngineCall.iperf_set_test_rate (if bandwidth > 0 then bandwidth else 1000000),
                EngineCall.iperf_get_test_rate] := by
  have hsetup : client_setup W host port duration parallel reverse true 0 cb ctx s
      = client_setup W host port duration parallel reverse true 1000000 cb ctx s := by
    unfold client_setup apply_transport
    simp
  refine ⟨?_, hsetup, ?_⟩
  · unfold iperf3_run_client_test
    rw [hsetup]
  · intro bandwidth test s1 h
    obtain ⟨htest, htransport⟩ := client_setup_inr W host port duration parallel reverse true
      bandwidth cb ctx s test s1 h
    subst htest
    have hconf := configure_client_test_deref W host port duration parallel reverse
      s.heap.length
      { s with
        g_progress_callback := cb, g_progress_context := ctx,
        i_errno := (W.iperf_new_test s.i_errno).2,
        heap := s.heap ++ [some iperf_test.fresh] }
      iperf_test.fresh (State.deref_alloc _ _)
    rw [apply_transport_udp_calls W bandwidth s.heap.length _ _ s1 _ hconf htransport]
    rfl

/-- Witness of C6: a UDP run with bandwidth 0 reaches the registration after a rate
of 1000000 was given to the engine. -/
theorem udp_default_bandwidth_is_one_megabit_witness :
    ∃ s1 : State,
      client_setup (Env.sample true 0 { events := [], result_code := 0, i_errno := 0 } none)
          "192.0.2.1" 5201 10 1 false true 0 none none (State.initial 0) = Sum.inr (0, s1)
        ∧ s1.callsOf 0
          = [EngineCall.iperf_defaults, EngineCall.iperf_set_test_role 'c',
              EngineCall.iperf_set_test_server_hostname "192.0.2.1",
              EngineCall.iperf_set_test_server_port 5201,
              EngineCall.iperf_set_test_duration 10,
              EngineCall.iperf_set_test_num_streams 1,
              EngineCall.iperf_set_test_reverse 0,
              EngineCall.iperf_set_test_json_output 1,
              EngineCall.set_protocol Protocol.Pudp,
              EngineCall.iperf_set_test_blksize 0,
              EngineCall.iperf_set_test_rate 1000000,
              EngineCall.iperf_get_test_rate] :=
  ⟨_, rfl,
    (udp_default_bandwidth_is_one_megabit
      (Env.sample true 0 { events := [], result_code := 0, i_errno := 0 } none)
      "192.0.2.1" 5201 10 1 false none none (State.initial 0)).2.2 0 0 _ rfl⟩

/-- C7: iperf3_start_server_test returns false and leaves the state as it was when a
server is running, and iperf3_stop_server_test returns false, changes nothing and
touches no thread when none is running. -/
theorem server_requests_rejected_without_effect (W : Env) (port : Int) (use_udp : Bool)
    (s : State) :
    (s.g_server_running = true → iperf3_start_server_test W port use_udp s = (false, s))
      ∧ (s.g_server_running = false → iperf3_stop_server_test W s = (false, s, [])) := by
  constructor
  · intro h
    unfold iperf3_start_server_test
    simp [h]
  · intro h
    unfold iperf3_stop_server_test
    simp [h]

/-- Witness of C7: a second start after a successful start, and a stop in the initial
state. -/
theorem server_requests_rejected_without_effect_witness :
    iperf3_start_server_test
        (Env.sample true 0 { events := [], result_code := 0, i_errno := 0 } none) 5202 true
        (iperf3_start_server_test
          (Env.sample true 0 { events := [], result_code := 0, i_errno := 0 } none) 5201 false
          (State.initial 0)).2
      = (false, (iperf3_start_server_test
          (Env.sample true 0 { events := [], result_code := 0, i_errno := 0 } none) 5201 false
          (State.initial 0)).2)
      ∧ iperf3_stop_server_test
          (Env.sample true 0 { events := [], result_code := 0, i_errno := 0 } none)
          (State.initial 0)
        = (false, State.initial 0, []) :=
  ⟨(server_requests_rejected_without_effect
      (Env.sample true 0 { events := [], result_code := 0, i_errno := 0 } none) 5202 true
      (iperf3_start_server_test
        (Env.sample true 0 { events := [], result_code := 0, i_errno := 0 } none) 5201 false
        (State.initial 0)).2).1 rfl,
    (server_requests_rejected_without_effect
      (Env.sample true 0 { events := [], result_code := 0, i_errno := 0 } none) 5202 true
      (State.initial 0)).2 rfl⟩

/-- C8 (the code at the failing input): when the engine cannot construct an instance
and leaves its error code in i_errno, the function returns with i_errno still holding
that code, not IENONE; the same happens when set_protocol fails. -/
theorem early_return_leaves_i_errno_set :
    (iperf3_run_client_test
        (Env.sample false 0 { events := [], result_code := 0, i_errno := 0 } none)
        "192.0.2.1" 5201 10 1 false false 0 none none (State.initial 0)).2.1.i_errno = 100
      ∧ (iperf3_run_client_test
        (Env.sample true (-1) { events := [], result_code := 0, i_errno := 0 } none)
        "192.0.2.1" 5201 10 1 false false 0 none none (State.initial 0)).2.1.i_errno = 20
      ∧ (Env.sample false 0 { events := [], result_code := 0, i_errno := 0 } none).IENONE = 0
      ∧ (Env.sample true (-1) { events := [], result_code := 0, i_errno := 0 } none).IENONE
          = 0 :=
  ⟨rfl, rfl, rfl, rfl⟩

/-- C9: a run that was not cancelled and ended with result code 0 but a non-zero error
indicator e returns success = false, error code e and the engine's description of e
as message (a generic message if the engine has none); a run that was not cancelled
and ended with a non-zero result code r returns success = false, error code r and the
engine's error description, or a generic message if the engine has none. Neither has
a jsonOutput. -/
theorem engine_failure_envelope (W : Env) (host : String)
    (port duration parallel : Int) (reverse use_udp : Bool) (bandwidth : Int)
    (cb ctx : Option Nat) (s : State) (test : Nat) (s1 : State)
    (hsetup : client_setup W host port duration parallel reverse use_udp bandwidth cb ctx s
      = Sum.inr (test, s1))
    (hnot : RunEvent.cancel ∉ (W.iperf_run_client (s1.callsOf test)).events) :
    ((W.iperf_run_client (s1.callsOf test)).result_code = 0 →
      (W.iperf_run_client (s1.callsOf test)).i_errno ≠ 0 →
      (iperf3_run_client_test W host port duration parallel reverse use_udp bandwidth cb ctx
          s).1.success = false
        ∧ (iperf3_run_client_test W host port duration parallel reverse use_udp bandwidth cb
          ctx s).1.errorCode = (W.iperf_run_client (s1.callsOf test)).i_errno
        ∧ (iperf3_run_client_test W host port duration parallel reverse use_udp bandwidth cb
          ctx s).1.errorMessage
            = some ((W.iperf_strerror (W.iperf_run_client (s1.callsOf test)).i_errno).getD
                "Test encountered an error")
        ∧ (iperf3_run_client_test W host port duration parallel reverse use_udp bandwidth cb
          ctx s).1.jsonOutput = none)
      ∧ ((W.iperf_run_client (s1.callsOf test)).result_code ≠ 0 →
        (iperf3_run_client_test W host port duration parallel reverse use_udp bandwidth cb ctx
            s).1.success = false
          ∧ (iperf3_run_client_test W host port duration parallel reverse use_udp bandwidth cb
            ctx s).1.errorCode = (W.iperf_run_client (s1.callsOf test)).result_code
          ∧ (iperf3_run_client_test W host port duration parallel reverse use_udp bandwidth cb
            ctx s).1.errorMessage
              = some ((W.iperf_strerror (W.iperf_run_client (s1.callsOf test)).i_errno).getD
                  "iperf3 test failed")
          ∧ (iperf3_run_client_test W host port duration parallel reverse use_udp bandwidth cb
            ctx s).1.jsonOutput = none) := by
  rw [run_client_of_setup W host port duration parallel reverse use_udp bandwidth cb ctx s
    test s1 hsetup]
  dsimp only
  constructor
  · intro hcode herrno
    rw [classify_engine_error W test _ _ (run_registered_not_cancelled W test s1 hnot)
      (by rw [run_registered_result_code]; exact hcode)
      (by rw [run_registered_final_errno]; exact herrno)]
    exact ⟨rfl, rfl, rfl, rfl⟩
  · intro hcode
    rw [classify_failed W test _ _ (run_registered_not_cancelled W test s1 hnot)
      (by rw [run_registered_result_code]; exact hcode)]
    exact ⟨rfl, rfl, rfl, rfl⟩

/-- Witness of C9: a TCP run that ends with result code 0 and the error indicator 121
("server busy"). -/
theorem engine_failure_envelope_witness :
    (iperf3_run_client_test
        (Env.sample true 0 { events := [], result_code := 0, i_errno := 121 } (some "\x7b\x7d"))
        "192.0.2.1" 5201 10 1 false false 0 none none (State.initial 0)).1.success = false
      ∧ (iperf3_run_client_test
        (Env.sample true 0 { events := [], result_code := 0, i_errno := 121 } (some "\x7b\x7d"))
        "192.0.2.1" 5201 10 1 false false 0 none none (State.initial 0)).1.errorCode = 121
      ∧ (iperf3_run_client_test
        (Env.sample true 0 { events := [], result_code := 0, i_errno := 121 } (some "\x7b\x7d"))
        "192.0.2.1" 5201 10 1 false false 0 none none (State.initial 0)).1.errorMessage
          = some "engine error"
      ∧ (iperf3_run_client_test
        (Env.sample true 0 { events := [], result_code := 0, i_errno := 121 } (some "\x7b\x7d"))
        "192.0.2.1" 5201 10 1 false false 0 none none (State.initial 0)).1.jsonOutput = none :=
  (engine_failure_envelope
    (Env.sample true 0 { events := [], result_code := 0, i_errno := 121 } (some "\x7b\x7d"))
    "192.0.2.1" 5201 10 1 false false 0 none none (State.initial 0) 0 _ rfl
    (by simp [Env.sample])).1 rfl (by decide)

/-- C10: a run that was not cancelled and ended with result code 0 and no error
indicator, but for which the engine has no JSON result string, returns success = false,
error code -1, the non-empty message "No JSON output available" and no jsonOutput. -/
theorem missing_json_output_is_failure (W : Env) (host : String)
    (port duration parallel : Int) (reverse use_udp : Bool) (bandwidth : Int)
    (cb ctx : Option Nat) (s : State) (test : Nat) (s1 : State)
    (hsetup : client_setup W host port duration parallel reverse use_udp bandwidth cb ctx s
      = Sum.inr (test, s1))
    (hnot : RunEvent.cancel ∉ (W.iperf_run_client (s1.callsOf test)).events)
    (hcode : (W.iperf_run_client (s1.callsOf test)).result_code = 0)
    (herrno : (W.iperf_run_client (s1.callsOf test)).i_errno = 0)
    (hjson : W.iperf_get_test_json_output_string ((run_registered W test s1).2.1.callsOf test)
      = none) :
    (iperf3_run_client_test W host port duration parallel reverse use_udp bandwidth cb ctx
        s).1.success = false
      ∧ (iperf3_run_client_test W host port duration parallel reverse use_udp bandwidth cb ctx
        s).1.errorCode = -1
      ∧ (iperf3_run_client_test W host port duration parallel reverse use_udp bandwidth cb ctx
        s).1.errorMessage = some "No JSON output available"
      ∧ "No JSON output available" ≠ ""
      ∧ (iperf3_run_client_test W host port duration parallel reverse use_udp bandwidth cb ctx
        s).1.jsonOutput = none := by
  rw [run_client_of_setup W host port duration parallel reverse use_udp bandwidth cb ctx s
    test s1 hsetup]
  dsimp only
  rw [classify_no_output W test _ _ (run_registered_not_cancelled W test s1 hnot)
    (by rw [run_registered_result_code]; exact hcode)
    (by rw [run_registered_final_errno]; exact herrno) hjson]
  exact ⟨rfl, rfl, rfl, by decide, rfl⟩

/-- Witness of C10: a TCP run that ends cleanly while the engine has no JSON result. -/
theorem missing_json_output_is_failure_witness :
    (iperf3_run_client_test
        (Env.sample true 0 { events := [], result_code := 0, i_errno := 0 } none)
        "192.0.2.1" 5201 10 1 false false 0 none none (State.initial 0)).1.errorCode = -1 :=
  (missing_json_output_is_failure
    (Env.sample true 0 { events := [], result_code := 0, i_errno := 0 } none)
    "192.0.2.1" 5201 10 1 false false 0 none none (State.initial 0) 0 _ rfl
    (by simp [Env.sample]) rfl rfl rfl).2.1

/-- C11 (counterexample): in a TCP run in which set_protocol returns -1 and leaves
i_errno = 20, the envelope's error code is -1, the value set_protocol returned, and
not the value of i_errno. -/
theorem transport_failure_code_is_not_i_errno :
    (iperf3_run_client_test
        (Env.sample true (-1) { events := [], result_code := 0, i_errno := 0 } none)
        "192.0.2.1" 5201 10 1 false false 0 none none (State.initial 0)).1.errorCode = -1
      ∧ (iperf3_run_client_test
        (Env.sample true (-1) { events := [], result_code := 0, i_errno := 0 } none)
        "192.0.2.1" 5201 10 1 false false 0 none none (State.initial 0)).2.1.i_errno = 20
      ∧ (iperf3_run_client_test
        (Env.sample true (-1) { events := [], result_code := 0, i_errno := 0 } none)
        "192.0.2.1" 5201 10 1 false false 0 none none (State.initial 0)).1.errorCode
        ≠ (iperf3_run_client_test
        (Env.sample true (-1) { events := [], result_code := 0, i_errno := 0 } none)
        "192.0.2.1" 5201 10 1 false false 0 none none (State.initial 0)).2.1.i_errno := by
  refine ⟨rfl, rfl, ?_⟩
  decide

/-- C11 (amended): when set_protocol returns a non-zero value r and leaves i_errno = e,
iperf3_run_client_test returns from the setup, before the registration and the engine
run: the envelope has success = false, error code r and as message the engine's
description of e (a fixed text if the engine has none); the instance, on which only the
configuration calls and set_protocol were made, is released; the registration and the
cancellation flag are as they were; nothing is done to the outside. -/
theorem transport_failure_returns_before_registration (W : Env) (host : String)
    (port duration parallel : Int) (reverse use_udp : Bool) (bandwidth : Int)
    (cb ctx : Option Nat) (s : State) (r e : Int)
    (hnew : (W.iperf_new_test s.i_errno).1 = true)
    (hproto : W.set_protocol (client_config_calls host port duration parallel reverse)
      (selected_protocol use_udp) (W.iperf_new_test s.i_errno).2 = (r, e))
    (hr : r ≠ 0) :
    (iperf3_run_client_test W host port duration parallel reverse use_udp bandwidth cb ctx
        s).1.success = false
      ∧ (iperf3_run_client_test W host port duration parallel reverse use_udp bandwidth cb ctx
        s).1.errorCode = r
      ∧ (iperf3_run_client_test W host port duration parallel reverse use_udp bandwidth cb ctx
        s).1.errorMessage = some ((W.iperf_strerror e).getD (protocol_failure_text use_udp))
      ∧ (∃ early, client_setup W host port duration parallel reverse use_udp bandwidth cb ctx s
          = Sum.inl early
        ∧ iperf3_run_client_test W host port duration parallel reverse use_udp bandwidth cb
          ctx s = (early.1, early.2, []))
      ∧ (∃ before : State,
          (iperf3_run_client_test W host port duration parallel reverse use_udp bandwidth cb
            ctx s).2.1 = iperf_free_test before s.heap.length
          ∧ before.callsOf s.heap.length
            = client_config_calls host port duration parallel reverse
                ++ [EngineCall.set_protocol (selected_protocol use_udp)])
      ∧ (iperf3_run_client_test W host port duration parallel reverse use_udp bandwidth cb ctx
        s).2.1.deref s.heap.length = none
      ∧ (iperf3_run_client_test W host port duration parallel reverse use_udp bandwidth cb ctx
        s).2.1.g_active_client_test = s.g_active_client_test
      ∧ (iperf3_run_client_test W host port duration parallel reverse use_udp bandwidth cb ctx
        s).2.1.g_cancel_client_requested = s.g_cancel_client_requested
      ∧ (iperf3_run_client_test W host port duration parallel reverse use_udp bandwidth cb ctx
        s).2.2 = [] := by
  have hsetup := client_setup_transport_failure W host port duration parallel reverse use_udp
    bandwidth cb ctx s r e hnew hproto hr
  have hrun : iperf3_run_client_test W host port duration parallel reverse use_udp bandwidth
      cb ctx s
      = (({ Iperf3Result.zeroed with
              success := false,
              errorMessage := some ((W.iperf_strerror e).getD (protocol_failure_text use_udp)),
              errorCode := r } : Iperf3Result),
          iperf_free_test
            { State.call
                (configure_client_test W host port duration parallel reverse s.heap.length
                  { s with
                    g_progress_callback := cb, g_progress_context := ctx,
                    i_errno := (W.iperf_new_test s.i_errno).2,
                    heap := s.heap ++ [some iperf_test.fresh] })
                s.heap.length (EngineCall.set_protocol (selected_protocol use_udp)) with
              i_errno := e }
            s.heap.length, []) := by
    unfold iperf3_run_client_test
    rw [hsetup]
  have hconf := configure_client_test_deref W host port duration parallel reverse
    s.heap.length
    { s with
      g_progress_callback := cb, g_progress_context := ctx,
      i_errno := (W.iperf_new_test s.i_errno).2,
      heap := s.heap ++ [some iperf_test.fresh] }
    iperf_test.fresh (State.deref_alloc _ _)
  refine ⟨?_, ?_, ?_, ⟨_, hsetup, hrun⟩, ⟨_, by rw [hrun], ?_⟩, ?_, ?_, ?_, ?_⟩
  · rw [hrun]
  · rw [hrun]
  · rw [hrun]
  · exact State.callsOf_call _ _ _ _ hconf
  · rw [hrun]; exact iperf_free_test_deref _ _
  · rw [hrun]; rfl
  · rw [hrun]; rfl
  · rw [hrun]

/-- Witness of C11 (amended): a UDP run in which set_protocol returns -1 and leaves
i_errno = 20. -/
theorem transport_failure_returns_before_registration_witness :
    (iperf3_run_client_test
        (Env.sample true (-1) { events := [], result_code := 0, i_errno := 0 } none)
        "192.0.2.1" 5201 10 1 false true 0 none none (State.initial 0)).1.errorCode = -1
      ∧ (iperf3_run_client_test
        (Env.sample true (-1) { events := [], result_code := 0, i_errno := 0 } none)
        "192.0.2.1" 5201 10 1 false true 0 none none (State.initial 0)).1.errorMessage
          = some "engine error" :=
  ⟨(transport_failure_returns_before_registration
      (Env.sample true (-1) { events := [], result_code := 0, i_errno := 0 } none)
      "192.0.2.1" 5201 10 1 false true 0 none none (State.initial 0) (-1) 20 rfl rfl
      (by decide)).2.1,
    (transport_failure_returns_before_registration
      (Env.sample true (-1) { events := [], result_code := 0, i_errno := 0 } none)
      "192.0.2.1" 5201 10 1 false true 0 none none (State.initial 0) (-1) 20 rfl rfl
      (by decide)).2.2.1⟩

/-- C12: a call of iperf3_run_client_test made while no client is registered and the
cancellation flag is clear returns, on every path, with no client registered and the
flag clear; a call that reaches the engine run returns so from any state, because the
step that reads the flag after the last event of the window is the step that clears
the registration and the flag. The condition at the call is no extra assumption: it
holds in the initial state, a cancellation request made while no client is registered
keeps it, and the server functions do not touch the two variables. -/
theorem registration_is_empty_after_run (W : Env) (host : String)
    (port duration parallel : Int) (reverse use_udp : Bool) (bandwidth : Int)
    (cb ctx : Option Nat) (s : State) :
    (s.g_active_client_test = none → s.g_cancel_client_requested = 0 →
        (iperf3_run_client_test W host port duration parallel reverse use_udp bandwidth cb ctx
            s).2.1.g_active_client_test = none
          ∧ (iperf3_run_client_test W host port duration parallel reverse use_udp bandwidth cb
            ctx s).2.1.g_cancel_client_requested = 0)
      ∧ (∀ (test : Nat) (s1 : State),
          client_setup W host port duration parallel reverse use_udp bandwidth cb ctx s
            = Sum.inr (test, s1) →
          (iperf3_run_client_test W host port duration parallel reverse use_udp bandwidth cb
              ctx s).2.1.g_active_client_test = none
            ∧ (iperf3_run_client_test W host port duration parallel reverse use_udp bandwidth
              cb ctx s).2.1.g_cancel_client_requested = 0
            ∧ (run_registered W test s1).2.1.g_active_client_test = none
            ∧ (run_registered W test s1).2.1.g_cancel_client_requested = 0
            ∧ (run_registered W test s1).1.was_cancelled
              = (run_events W test (W.iperf_run_client (s1.callsOf test)).events
                  (State.call
                    { s1 with
                      g_active_client_test := some test, g_cancel_client_requested := 0,
                      i_errno := W.IENONE } test
                    EngineCall.iperf_run_client)).1.g_cancel_client_requested)
      ∧ (s.g_active_client_test = none → s.g_cancel_client_requested = 0 →
          (iperf3_request_client_cancel W s).g_active_client_test = none
            ∧ (iperf3_request_client_cancel W s).g_cancel_client_requested = 0)
      ∧ (∀ (server_port : Int) (server_udp : Bool),
          (iperf3_start_server_test W server_port server_udp s).2.g_active_client_test
              = s.g_active_client_test
            ∧ (iperf3_start_server_test W server_port server_udp
                s).2.g_cancel_client_requested = s.g_cancel_client_requested)
      ∧ ((iperf3_stop_server_test W s).2.1.g_active_client_test = s.g_active_client_test
          ∧ (iperf3_stop_server_test W s).2.1.g_cancel_client_requested
              = s.g_cancel_client_requested)
      ∧ ((State.initial W.IENONE).g_active_client_test = none
          ∧ (State.initial W.IENONE).g_cancel_client_requested = 0) := by
  refine ⟨?_, ?_, ?_, fun server_port server_udp =>
    start_server_registration W server_port server_udp s, stop_server_registration W s,
    ⟨rfl, rfl⟩⟩
  · intro hidle hclear
    cases hsetup : client_setup W host port duration parallel reverse use_udp bandwidth cb
        ctx s with
    | inl early =>
      have hearly := client_setup_inl_registration W host port duration parallel reverse
        use_udp bandwidth cb ctx s early hsetup
      unfold iperf3_run_client_test
      rw [hsetup]
      exact ⟨hearly.1.trans hidle, hearly.2.trans hclear⟩
    | inr reached =>
      obtain ⟨test, s1⟩ := reached
      exact run_client_registration_of_setup W host port duration parallel reverse use_udp
        bandwidth cb ctx s test s1 hsetup
  · intro test s1 hsetup
    have h := run_client_registration_of_setup W host port duration parallel reverse use_udp
      bandwidth cb ctx s test s1 hsetup
    exact ⟨h.1, h.2, rfl, rfl, rfl⟩
  · intro hidle hclear
    have hsame : iperf3_request_client_cancel W s = s := by
      unfold iperf3_request_client_cancel
      rw [hidle]
    rw [hsame]
    exact ⟨hidle, hclear⟩

/-- Witness of C12: a run in which set_protocol fails, started in the initial state,
and a cancelled run. -/
theorem registration_is_empty_after_run_witness :
    ((iperf3_run_client_test
        (Env.sample true (-1) { events := [], result_code := 0, i_errno := 0 } none)
        "192.0.2.1" 5201 10 1 false false 0 none none
          (State.initial 0)).2.1.g_active_client_test = none
      ∧ (iperf3_run_client_test
        (Env.sample true (-1) { events := [], result_code := 0, i_errno := 0 } none)
        "192.0.2.1" 5201 10 1 false false 0 none none
          (State.initial 0)).2.1.g_cancel_client_requested = 0)
      ∧ (iperf3_run_client_test
        (Env.sample true 0 { events := [RunEvent.cancel], result_code := 0, i_errno := 0 } none)
        "192.0.2.1" 5201 10 1 false false 0 none none
          (State.initial 0)).2.1.g_cancel_client_requested = 0 :=
  ⟨(registration_is_empty_after_run
      (Env.sample true (-1) { events := [], result_code := 0, i_errno := 0 } none)
      "192.0.2.1" 5201 10 1 false false 0 none none (State.initial 0)).1 rfl rfl,
    ((registration_is_empty_after_run
      (Env.sample true 0 { events := [RunEvent.cancel], result_code := 0, i_errno := 0 } none)
      "192.0.2.1" 5201 10 1 false false 0 none none (State.initial 0)).2.1 0 _ rfl).2.1⟩

/-- C13 (the code at the failing input): when the engine cannot construct an instance,
the function returns with the caller's progress callback and its context still stored;
when set_protocol fails, it returns with the callback, the context and the saved
original reporter still stored. -/
theorem early_return_leaves_relay_state :
    (iperf3_run_client_test
        (Env.sample false 0 { events := [], result_code := 0, i_errno := 0 } none)
        "192.0.2.1" 5201 10 1 false false 0 (some 1) (some 2)
          (State.initial 0)).2.1.g_progress_callback = some 1
      ∧ (iperf3_run_client_test
        (Env.sample false 0 { events := [], result_code := 0, i_errno := 0 } none)
        "192.0.2.1" 5201 10 1 false false 0 (some 1) (some 2)
          (State.initial 0)).2.1.g_progress_context = some 2
      ∧ (iperf3_run_client_test
        (Env.sample true (-1) { events := [], result_code := 0, i_errno := 0 } none)
        "192.0.2.1" 5201 10 1 false false 0 (some 1) (some 2)
          (State.initial 0)).2.1.g_progress_callback = some 1
      ∧ (iperf3_run_client_test
        (Env.sample true (-1) { events := [], result_code := 0, i_errno := 0 } none)
        "192.0.2.1" 5201 10 1 false false 0 (some 1) (some 2)
          (State.initial 0)).2.1.g_progress_context = some 2
      ∧ (iperf3_run_client_test
        (Env.sample true (-1) { events := [], result_code := 0, i_errno := 0 } none)
        "192.0.2.1" 5201 10 1 false false 0 (some 1) (some 2)
          (State.initial 0)).2.1.g_original_reporter_callback = some (ReporterFn.engine 0) :=
  ⟨rfl, rfl, rfl, rfl, rfl⟩

/-- C14: with a client registered, iperf3_request_client_cancel sets the cancellation
flag, sets done = 1 on the registered instance and calls iperf_set_test_state and
iperf_set_send_state with CLIENT_TERMINATE on it, touching no other instance and no
other variable of the bridge; what iperf_set_send_state returns has no influence on
the state, only i_errno is as that call leaves it, and nothing is returned to the
caller. -/
theorem cancel_marks_registered_instance (W : Env) (s : State) (test : Nat) (t : iperf_test)
    (hactive : s.g_active_client_test = some test) (hd : s.deref test = some t) :
    (iperf3_request_client_cancel W s).g_cancel_client_requested = 1
      ∧ (iperf3_request_client_cancel W s).deref test
          = some { t with
              done := 1,
              calls := t.calls ++ [EngineCall.iperf_set_test_state W.CLIENT_TERMINATE,
                EngineCall.iperf_set_send_state W.CLIENT_TERMINATE] }
      ∧ (∀ q : Nat, q ≠ test → (iperf3_request_client_cancel W s).deref q = s.deref q)
      ∧ (iperf3_request_client_cancel W s).g_active_client_test = some test
      ∧ (iperf3_request_client_cancel W s).g_progress_callback = s.g_progress_callback
      ∧ (iperf3_request_client_cancel W s).g_progress_context = s.g_progress_context
      ∧ (iperf3_request_client_cancel W s).g_original_reporter_callback
          = s.g_original_reporter_callback
      ∧ (iperf3_request_client_cancel W s).g_last_reported_interval
          = s.g_last_reported_interval
      ∧ (iperf3_request_client_cancel W s).g_server_test = s.g_server_test
      ∧ (iperf3_request_client_cancel W s).g_server_thread = s.g_server_thread
      ∧ (iperf3_request_client_cancel W s).g_server_running = s.g_server_running
      ∧ (iperf3_request_client_cancel W s).i_errno
          = (W.iperf_set_send_state
              (t.calls ++ [EngineCall.iperf_set_test_state W.CLIENT_TERMINATE])
              W.CLIENT_TERMINATE s.i_errno).2
      ∧ (∀ signal : List EngineCall → Int → Int → Int × Int,
          (iperf3_request_client_cancel
              { W with iperf_set_send_state := signal } s).without_errno
            = (iperf3_request_client_cancel W s).without_errno) := by
  have hrec : ∀ (u : State) (e : Int) (q : Nat), State.deref { u with i_errno := e } q
      = u.deref q := fun _ _ _ => rfl
  have hrec2 : ∀ (u : State) (e : Int) (q : Nat),
      State.deref { u with g_cancel_client_requested := e } q = u.deref q := fun _ _ _ => rfl
  have hform : iperf3_request_client_cancel W s
      = { State.call
            (State.call
              (State.update { s with g_cancel_client_requested := 1 } test
                (fun u => { u with done := 1 }))
              test (EngineCall.iperf_set_test_state W.CLIENT_TERMINATE))
            test (EngineCall.iperf_set_send_state W.CLIENT_TERMINATE) with
          i_errno := (W.iperf_set_send_state
            (State.callsOf
              (State.call
                (State.update { s with g_cancel_client_requested := 1 } test
                  (fun u => { u with done := 1 }))
                test (EngineCall.iperf_set_test_state W.CLIENT_TERMINATE)) test)
            W.CLIENT_TERMINATE s.i_errno).2 } := by
    unfold iperf3_request_client_cancel
    rw [hactive]
    rfl
  have hindep : ∀ signal : List EngineCall → Int → Int → Int × Int,
      (iperf3_request_client_cancel { W with iperf_set_send_state := signal } s).without_errno
        = (iperf3_request_client_cancel W s).without_errno := by
    intro signal
    unfold iperf3_request_client_cancel
    rw [hactive]
    rfl
  refine ⟨(congrArg State.g_cancel_client_requested hform).trans rfl, ?_, ?_,
    ((congrArg State.g_active_client_test hform).trans rfl).trans hactive,
    (congrArg State.g_progress_callback hform).trans rfl,
    (congrArg State.g_progress_context hform).trans rfl,
    (congrArg State.g_original_reporter_callback hform).trans rfl,
    (congrArg State.g_last_reported_interval hform).trans rfl,
    (congrArg State.g_server_test hform).trans rfl,
    (congrArg State.g_server_thread hform).trans rfl,
    (congrArg State.g_server_running hform).trans rfl, ?_, hindep⟩
  · rw [hform, hrec, State.deref_call, State.deref_call, State.deref_update, hrec2, hd]
    simp only [Option.map_some', List.append_assoc, List.singleton_append]
  · intro q hq
    rw [hform, hrec]
    unfold State.call
    rw [State.deref_update_other, State.deref_update_other, State.deref_update_other, hrec2]
    simp only [Ne.symm hq, if_false]
  · rw [hform]
    show (W.iperf_set_send_state _ W.CLIENT_TERMINATE s.i_errno).2 = _
    congr 2
    unfold State.callsOf
    rw [State.deref_call, State.deref_update, hrec2, hd]
    rfl

/-- Witness of C14: a cancellation request while the instance of a run is registered,
with a peer that cannot be signalled. -/
theorem cancel_marks_registered_instance_witness :
    (iperf3_request_client_cancel
        { Env.sample true 0 { events := [], result_code := 0, i_errno := 0 } none with
          iperf_set_send_state := fun _ _ _ => (-1, 111) }
        { State.initial 0 with
          heap := [some iperf_test.fresh], g_active_client_test := some 0 }
      ).g_cancel_client_requested = 1
      ∧ (iperf3_request_client_cancel
        { Env.sample true 0 { events := [], result_code := 0, i_errno := 0 } none with
          iperf_set_send_state := fun _ _ _ => (-1, 111) }
        { State.initial 0 with
          heap := [some iperf_test.fresh], g_active_client_test := some 0 }).deref 0
        = some { iperf_test.fresh with
            done := 1,
            calls := [EngineCall.iperf_set_test_state 12, EngineCall.iperf_set_send_state 12] } :=
  ⟨(cancel_marks_registered_instance
      { Env.sample true 0 { events := [], result_code := 0, i_errno := 0 } none with
        iperf_set_send_state := fun _ _ _ => (-1, 111) }
      { State.initial 0 with
        heap := [some iperf_test.fresh], g_active_client_test := some 0 }
      0 iperf_test.fresh rfl rfl).1,
    (cancel_marks_registered_instance
      { Env.sample true 0 { events := [], result_code := 0, i_errno := 0 } none with
        iperf_set_send_state := fun _ _ _ => (-1, 111) }
      { State.initial 0 with
        heap := [some iperf_test.fresh], g_active_client_test := some 0 }
      0 iperf_test.fresh rfl rfl).2.1⟩

/-- C15: on every invocation of bridge_reporter_callback with a saved reporter, what
the relay does to the outside starts with one call of that reporter on the same test
instance, and everything after it is a call of the progress callback (possibly
nothing at all). -/
theorem saved_reporter_is_called_first_and_once (W : Env) (test : Option Nat) (s : State)
    (fn : ReporterFn) (hsaved : s.g_original_reporter_callback = some fn) :
    ∃ rest : List Effect,
      (bridge_reporter_callback W test s).2 = Effect.original_reporter fn test :: rest
        ∧ ∀ e ∈ rest, e.is_progress = true := by
  have hchained : call_original_reporter test s = [Effect.original_reporter fn test] := by
    unfold call_original_reporter
    rw [hsaved]
  unfold bridge_reporter_callback
  dsimp only
  rw [hchained]
  split
  · split
    · exact ⟨[], rfl, fun e he => by cases he⟩
    · split
      · exact ⟨[], rfl, fun e he => by cases he⟩
      · exact ⟨_, rfl, fun e he => relay_loop_is_progress W _ _ _ _ _ e he⟩
  · exact ⟨[], rfl, fun e he => by cases he⟩

/-- Witness of C15: an invocation without a progress callback, in which the relay
emits nothing and the saved reporter is still called. -/
theorem saved_reporter_is_called_first_and_once_witness :
    ∃ rest : List Effect,
      (bridge_reporter_callback
          (Env.sample true 0 { events := [], result_code := 0, i_errno := 0 } none) (some 0)
          { State.initial 0 with
            heap := [some iperf_test.fresh],
            g_original_reporter_callback := some (ReporterFn.engine 0) }).2
        = Effect.original_reporter (ReporterFn.engine 0) (some 0) :: rest
        ∧ ∀ e ∈ rest, e.is_progress = true :=
  saved_reporter_is_called_first_and_once
    (Env.sample true 0 { events := [], result_code := 0, i_errno := 0 } none) (some 0)
    { State.initial 0 with
      heap := [some iperf_test.fresh],
      g_original_reporter_callback := some (ReporterFn.engine 0) }
    (ReporterFn.engine 0) rfl

/-- C16 (counterexample): for an interval record whose summary has the whole number
"lost_packets" = 3000000000, on a platform with a 32-bit int, the notification does not
carry the summary's value as lostPackets: the conversion to int is undefined, and no
value of int equals 3000000000. -/
theorem relay_cannot_deliver_lost_packets_beyond_int :
    (iperf3_run_client_test
        (Env.sample true 0
          { events := [RunEvent.reporter (some (cJSON.array
              [cJSON.object [("sum", cJSON.object
                [("bytes", cJSON.number 1250000),
                 ("lost_packets", cJSON.number 3000000000)])]]))],
            result_code := 0, i_errno := 0 }
          (some "\x7b\x7d"))
        "192.0.2.1" 5201 10 1 false true 0 (some 1) none (State.initial 0)).2.2
        = [Effect.original_reporter (ReporterFn.engine 0) (some 0),
            Effect.progress 1 none 1 (some 1250000) 0 0 none 0]
      ∧ summary_value
          (cJSON.object
            [("bytes", cJSON.number 1250000), ("lost_packets", cJSON.number 3000000000)])
          "lost_packets" = 3000000000
      ∧ ∀ v : Int,
          (Env.sample true 0
            { events := [RunEvent.reporter (some (cJSON.array
                [cJSON.object [("sum", cJSON.object
                  [("bytes", cJSON.number 1250000),
                   ("lost_packets", cJSON.number 3000000000)])]]))],
              result_code := 0, i_errno := 0 }
            (some "\x7b\x7d")).INT_MIN ≤ v →
          v ≤ (Env.sample true 0
            { events := [RunEvent.reporter (some (cJSON.array
                [cJSON.object [("sum", cJSON.object
                  [("bytes", cJSON.number 1250000),
                   ("lost_packets", cJSON.number 3000000000)])]]))],
              result_code := 0, i_errno := 0 }
            (some "\x7b\x7d")).INT_MAX →
          (v : Rat) ≠ 3000000000 := by
  refine ⟨rfl, rfl, ?_⟩
  intro v _ hmax hv
  have hmax2 : v ≤ 2147483647 := hmax
  have hv2 : v = 3000000000 := by exact_mod_cast hv
  omega

/-- C16 (amended): for every not-yet-emitted interval record at position idx whose
summary object exists, one invocation of the relay calls the progress callback exactly
once with interval index idx + 1, whatever the fields of the summary; in that call RTT
is 0, bits_per_second and jitter are the summary's numeric values for "bits_per_second"
and "jitter_ms", and bytes and lost packets are the summary's numeric values for
"bytes" and "lost_packets" converted to long and to int; a value is 0 when its key is
missing or not a number. The conversion of a value whose integral part is a value of
the target type is that integral part, so the value itself when it is a whole number
of the target type; what a conversion yields otherwise is undefined, and a defined
result always is a value of the target type. -/
theorem relay_notification_carries_summary_values (W : Env) (test : Nat) (s : State)
    (cb : Nat) (items : List cJSON) (n idx : Nat) (sum : cJSON)
    (hcb : s.g_progress_callback = some cb)
    (hlist : (s.deref test).bind iperf_test.json_intervals = some (cJSON.array items))
    (hlast : s.g_last_reported_interval = (n : Int))
    (hnew : n ≤ idx) (hidx : idx < items.length)
    (hsum : get_interval_sum items[idx]? = some sum) :
    (bridge_reporter_callback W (some test) s).2.filter
        (fun e => decide (e.interval_index = some ((idx : Int) + 1)))
        = [Effect.progress cb s.g_progress_context ((idx : Int) + 1)
            (double_to_long W (summary_value sum "bytes"))
            (summary_value sum "bits_per_second") (summary_value sum "jitter_ms")
            (double_to_int W (summary_value sum "lost_packets")) 0]
      ∧ (∀ x : Rat, W.LONG_MIN ≤ truncate_toward_zero x → truncate_toward_zero x ≤ W.LONG_MAX →
          double_to_long W x = some (truncate_toward_zero x))
      ∧ (∀ x : Rat, W.INT_MIN ≤ truncate_toward_zero x → truncate_toward_zero x ≤ W.INT_MAX →
          double_to_int W x = some (truncate_toward_zero x))
      ∧ (∀ z : Int, W.LONG_MIN ≤ z → z ≤ W.LONG_MAX → double_to_long W (z : Rat) = some z)
      ∧ (∀ z : Int, W.INT_MIN ≤ z → z ≤ W.INT_MAX → double_to_int W (z : Rat) = some z)
      ∧ (∀ (x : Rat) (v : Int), double_to_long W x = some v → W.LONG_MIN ≤ v ∧ v ≤ W.LONG_MAX)
      ∧ (∀ (x : Rat) (v : Int), double_to_int W x = some v → W.INT_MIN ≤ v ∧ v ≤ W.INT_MAX) := by
  refine ⟨?_, double_to_long_of_range W, double_to_int_of_range W, ?_, ?_,
    double_to_long_defined W, double_to_int_defined W⟩
  · unfold bridge_reporter_callback
    simp only [hcb, hlist, hlast, cJSON_GetArraySize]
    have hgt : ¬ ((items.length : Int) ≤ (n : Int)) := by omega
    simp only [hgt, if_false, List.filter_append, filter_call_original_reporter,
      List.nil_append]
    rw [filter_relay_loop W cb s.g_progress_context (cJSON.array items) n items.length idx
      hnew hidx]
    exact relay_interval_of_summary W cb s.g_progress_context items idx sum hsum
  · intro z hmin hmax
    have h := double_to_long_of_range W (z : Rat)
      (by rw [truncate_toward_zero_intCast]; exact hmin)
      (by rw [truncate_toward_zero_intCast]; exact hmax)
    rw [h, truncate_toward_zero_intCast]
  · intro z hmin hmax
    have h := double_to_int_of_range W (z : Rat)
      (by rw [truncate_toward_zero_intCast]; exact hmin)
      (by rw [truncate_toward_zero_intCast]; exact hmax)
    rw [h, truncate_toward_zero_intCast]

/-- Witness of C16 (amended): a list of two records seen with the counter at 1; the
second record has only "sum_sent", with "bytes" = 7 and a "lost_packets" that is a
string. -/
theorem relay_notification_carries_summary_values_witness :
    (bridge_reporter_callback
        (Env.sample true 0 { events := [], result_code := 0, i_errno := 0 } none) (some 0)
        { State.initial 0 with
          heap := [some { iperf_test.fresh with
            json_intervals := some (cJSON.array
              [cJSON.object [("sum", cJSON.object [("bytes", cJSON.number 5)])],
               cJSON.object [("sum_sent", cJSON.object
                 [("bytes", cJSON.number 7), ("lost_packets", cJSON.string "x")])]]) }],
          g_progress_callback := some 3,
          g_last_reported_interval := 1 }).2.filter
        (fun e => decide (e.interval_index = some 2))
      = [Effect.progress 3 none 2 (some 7) 0 0 (some 0) 0] :=
  (relay_notification_carries_summary_values
    (Env.sample true 0 { events := [], result_code := 0, i_errno := 0 } none) 0
    { State.initial 0 with
      heap := [some { iperf_test.fresh with
        json_intervals := some (cJSON.array
          [cJSON.object [("sum", cJSON.object [("bytes", cJSON.number 5)])],
           cJSON.object [("sum_sent", cJSON.object
             [("bytes", cJSON.number 7), ("lost_packets", cJSON.string "x")])]]) }],
      g_progress_callback := some 3,
      g_last_reported_interval := 1 }
    3 _ 1 1 _ rfl rfl rfl (by decide) (by decide) rfl).1

/-- C17: a run reaches the registration with the emitted-interval counter at 0; no
invocation of the relay decreases the counter; an invocation that sees an interval
count not larger than the counter leaves the state as it is and calls the progress
callback for nothing; and over the whole run, whatever the reporter events and
cancellation requests, the interval indices passed to the progress callback are
strictly increasing, so none is passed twice. -/
theorem emitted_counter_never_decreases (W : Env) (host : String)
    (port duration parallel : Int) (reverse use_udp : Bool) (bandwidth : Int)
    (cb ctx : Option Nat) (s : State) (test : Nat) (s1 : State)
    (hsetup : client_setup W host port duration parallel reverse use_udp bandwidth cb ctx s
      = Sum.inr (test, s1)) :
    s1.g_last_reported_interval = 0
      ∧ (∀ (t : Option Nat) (u : State),
          u.g_last_reported_interval
            ≤ (bridge_reporter_callback W t u).1.g_last_reported_interval)
      ∧ (∀ (p : Nat) (u : State) (ji : cJSON),
          (u.deref p).bind iperf_test.json_intervals = some ji →
          cJSON_GetArraySize ji ≤ u.g_last_reported_interval →
          (bridge_reporter_callback W (some p) u).1 = u
            ∧ progress_indices (bridge_reporter_callback W (some p) u).2 = [])
      ∧ List.Pairwise (fun x y => x < y)
          (progress_indices (iperf3_run_client_test W host port duration parallel reverse
            use_udp bandwidth cb ctx s).2.2)
      ∧ (∀ i ∈ progress_indices (iperf3_run_client_test W host port duration parallel reverse
            use_udp bandwidth cb ctx s).2.2, 0 < i) := by
  have hzero := client_setup_counter_zero W host port duration parallel reverse use_udp
    bandwidth cb ctx s test s1 hsetup
  have heff : (iperf3_run_client_test W host port duration parallel reverse use_udp
      bandwidth cb ctx s).2.2
      = (run_events W test (W.iperf_run_client (s1.callsOf test)).events
          (State.call
            { s1 with
              g_active_client_test := some test, g_cancel_client_requested := 0,
              i_errno := W.IENONE } test EngineCall.iperf_run_client)).2 := by
    rw [run_client_of_setup W host port duration parallel reverse use_udp bandwidth cb ctx s
      test s1 hsetup]
    rfl
  obtain ⟨_, hpair, hpos⟩ := run_events_increasing W test
    (W.iperf_run_client (s1.callsOf test)).events
    (State.call
      { s1 with
        g_active_client_test := some test, g_cancel_client_requested := 0,
        i_errno := W.IENONE } test EngineCall.iperf_run_client)
  refine ⟨hzero, fun t u => (bridge_reporter_callback_step W t u).1,
    fun p u ji h1 h2 => bridge_reporter_callback_quiet W p u ji h1 h2, ?_, ?_⟩
  · rw [heff]
    exact hpair
  · intro i hi
    rw [heff] at hi
    have h := hpos i hi
    have hstart : (State.call
        { s1 with
          g_active_client_test := some test, g_cancel_client_requested := 0,
          i_errno := W.IENONE } test EngineCall.iperf_run_client).g_last_reported_interval
        = 0 := hzero
    rw [hstart] at h
    exact h

/-- Witness of C17: a run shown two records, then a shorter list of one record, then
three records; the callback gets the indices 1, 2, 3, each once. -/
theorem emitted_counter_never_decreases_witness :
    List.Pairwise (fun x y => x < y)
      (progress_indices (iperf3_run_client_test
        (Env.sample true 0
          { events := [
              RunEvent.reporter (some (cJSON.array
                [cJSON.object [("sum", cJSON.object [])],
                 cJSON.object [("sum", cJSON.object [])]])),
              RunEvent.reporter (some (cJSON.array
                [cJSON.object [("sum", cJSON.object [])]])),
              RunEvent.reporter (some (cJSON.array
                [cJSON.object [("sum", cJSON.object [])],
                 cJSON.object [("sum", cJSON.object [])],
                 cJSON.object [("sum", cJSON.object [])]]))],
            result_code := 0, i_errno := 0 }
          (some "\x7b\x7d"))
        "192.0.2.1" 5201 10 1 false false 0 (some 1) none (State.initial 0)).2.2) :=
  (emitted_counter_never_decreases
    (Env.sample true 0
      { events := [
          RunEvent.reporter (some (cJSON.array
            [cJSON.object [("sum", cJSON.object [])],
             cJSON.object [("sum", cJSON.object [])]])),
          RunEvent.reporter (some (cJSON.array
            [cJSON.object [("sum", cJSON.object [])]])),
          RunEvent.reporter (some (cJSON.array
            [cJSON.object [("sum", cJSON.object [])],
             cJSON.object [("sum", cJSON.object [])],
             cJSON.object [("sum", cJSON.object [])]]))],
        result_code := 0, i_errno := 0 }
      (some "\x7b\x7d"))
    "192.0.2.1" 5201 10 1 false false 0 (some 1) none (State.initial 0) 0 _ rfl).2.2.2.1

end Iperf3Bridge
